import Mathlib

/-!
Verification development for `ude_points_utils.py`, a pandas utility that
reshapes a flat two-sided fight dataset (one row per bout, paired
`*_fighter_1` / `*_fighter_2` columns) into fighter-centric career rows and
champion/contender title-bout views.

Shallow embedding conventions:
* A pandas cell is a `Value`: a string, an integer, or `null` (modelling
  both `NaN` and Python `None`). The numeric fields of the source are
  floats; the claims under verification concern exact subtraction, ordering
  and missing-value propagation, which are representation-independent, so
  cells are modelled over `ℤ` (mean/median results, which can be
  fractional, are returned as exact rationals).
* A row is an association list from column names to values; a `Table` keeps
  the column list (needed because pandas raises `KeyError` from the column
  index even when there are no rows) together with the rows.
* Fallible pandas operations (column access on a missing column, arithmetic
  on non-numeric cells) are embedded in `Except String`.
* `df.apply(f, axis=1, result_type='expand')` on a frame with zero rows
  returns a copy of the input frame with its original columns
  (pandas `apply_empty_result`); `applyExpand` reproduces this.
* In-place pandas mutation in the source only ever touches tables produced
  by `.copy()`; the `*_run` definitions at the end record this aliasing
  structure explicitly.
-/

inductive Value : Type where
  | str : String → Value
  | num : ℤ → Value
  | null : Value
deriving DecidableEq, Repr

abbrev Row := List (String × Value)

structure Table where
  cols : List String
  rows : List Row
deriving DecidableEq, Repr

/-- Look a column up in a row (first matching entry, as a pandas row label). -/
def rowGet : Row → String → Option Value
  | [], _ => none
  | (k, v) :: t, c => if k = c then some v else rowGet t c

/-- `row['c']`: raises `KeyError` when the label is absent. -/
def getV (r : Row) (c : String) : Except String Value :=
  match rowGet r c with
  | some v => .ok v
  | none => .error ("KeyError: " ++ c)

/-- Set a column in a row: replace the first matching entry, else append. -/
def rowSet : Row → String → Value → Row
  | [], c, v => [(c, v)]
  | (k, w) :: t, c, v => if k = c then (c, v) :: t else (k, w) :: rowSet t c v

/-- pandas `==` on scalars: `NaN`/`None` compare unequal to everything. -/
def veq : Value → Value → Bool
  | .str a, .str b => a = b
  | .num a, .num b => a = b
  | _, _ => false

/-- Numeric subtraction of cells: missing operands propagate (`NaN - x = NaN`);
    non-numeric operands raise `TypeError`. -/
def vsub : Value → Value → Except String Value
  | .num a, .num b => .ok (.num (a - b))
  | .num _, .null => .ok .null
  | .null, .num _ => .ok .null
  | .null, .null => .ok .null
  | _, _ => .error "TypeError"

/-- Effectful map over a list in `Except` (the traversal underlying the
    row-wise `apply`/select steps). -/
def mapE {α β : Type} (f : α → Except String β) : List α → Except String (List β)
  | [] => .ok []
  | x :: xs => do
    let y ← f x
    let ys ← mapE f xs
    .ok (y :: ys)

/-- The side-independent columns selected by `reorganize_fight_data`. -/
def sharedCols : List String := [
  "event_date",
  "event_name",
  "event_url",
  "bout",
  "fight_url",
  "weight_class",
  "weight_class_cleaned",
  "is_title_bout",
  "time_format",
  "match_format_rounds",
  "is_rematch",
  "method",
  "method_mapped",
  "time",
  "time_in_mins",
  "round_ended",
  "total_time_in_mins",
  "who_won_striking",
  "who_won_wrestling",
  "who_won_grappling",
  "who_won_control",
  "who_won_standing_danger",
  "dominant_fighter",
  "phases_won"]

/-- The field dictionary of `extract_fighter_details`, entry for entry:
    (career field name, side-1 column, side-2 column). -/
def fighterPairs : List (String × String × String) := [
  ("fighter", "fighter_1", "fighter_2"),
  ("pre_fight_record_(W-L-D NC)", "pre_fight_record_fighter_1_(W-L-D NC)", "pre_fight_record_fighter_2_(W-L-D NC)"),
  ("post_fight_record_(W-L-D NC)", "post_fight_record_fighter_1_(W-L-D NC)", "post_fight_record_fighter_2_(W-L-D NC)"),
  ("result", "fight_result_fighter_1", "fight_result_fighter_2"),
  ("win_streak", "W/L_streak_fighter_1", "W/L_streak_fighter_2"),
  ("ude_points_pre_fight", "ude_points_pre_fight_fighter_1", "ude_points_pre_fight_fighter_2"),
  ("ude_points_post_fight", "ude_points_post_fight_fighter_1", "ude_points_post_fight_fighter_2"),
  ("ude_points_diff", "ude_points_diff_fighter_1", "ude_points_diff_fighter_2"),
  ("kd", "kd_fighter_1", "kd_fighter_2"),
  ("kd_diff", "kd_diff_fighter_1", "kd_diff_fighter_2"),
  ("sig_strikes_landed", "sig_strikes_landed_fighter_1", "sig_strikes_landed_fighter_2"),
  ("sig_strikes_attempted", "sig_strikes_attempted_fighter_1", "sig_strikes_attempted_fighter_2"),
  ("sig_strikes_pct", "sig_strikes_pct_fighter_1", "sig_strikes_pct_fighter_2"),
  ("sig_strikes_def", "sig_strikes_defense_fighter_1", "sig_strikes_defense_fighter_2"),
  ("dynamic_sig_strikes_acc", "dynamic_sig_strikes_accuracy_fighter_1", "dynamic_sig_strikes_accuracy_fighter_2"),
  ("dynamic_sig_strikes_def", "dynamic_sig_strikes_defence_fighter_1", "dynamic_sig_strikes_defence_fighter_2"),
  ("sig_strikes_landed_per_min", "sig_strikes_landed_per_min_fighter_1", "sig_strikes_landed_per_min_fighter_2"),
  ("sig_strikes_absorbed_per_min", "sig_strikes_absorbed_per_min_fighter_1", "sig_strikes_absorbed_per_min_fighter_2"),
  ("sig_strikes_landed_diff", "sig_strikes_landed_diff_fighter_1", "sig_strikes_landed_diff_fighter_2"),
  ("standing_sig_strikes_landed", "standing_sig_strikes_landed_fighter_1", "standing_sig_strikes_landed_fighter_2"),
  ("standing_sig_strikes_attempted", "standing_sig_strikes_attempted_fighter_1", "standing_sig_strikes_attempted_fighter_2"),
  ("standing_sig_strikes_landed_diff", "standing_sig_strikes_landed_diff_fighter_1", "standing_sig_strikes_landed_diff_fighter_2"),
  ("total_strikes_landed", "total_strikes_landed_fighter_1", "total_strikes_landed_fighter_2"),
  ("total_strikes_attempted", "total_strikes_attempted_fighter_1", "total_strikes_attempted_fighter_2"),
  ("career_sig_strikes_landed (mean)", "career_sig_strikes_landed_fighter_1 (mean)", "career_sig_strikes_landed_fighter_2 (mean)"),
  ("career_sig_striking_acc", "career_sig_striking_accuracy_fighter_1", "career_sig_striking_accuracy_fighter_2"),
  ("td_landed", "td_landed_fighter_1", "td_landed_fighter_2"),
  ("td_attempted", "td_attempted_fighter_1", "td_attempted_fighter_2"),
  ("td_pct", "td_pct_fighter_1", "td_pct_fighter_2"),
  ("td_def", "td_defense_fighter_1", "td_defense_fighter_2"),
  ("td_landed_diff", "td_landed_diff_fighter_1", "td_landed_diff_fighter_2"),
  ("dynamic_td_acc", "dynamic_td_accuracy_fighter_1", "dynamic_td_accuracy_fighter_2"),
  ("dynamic_td_def", "dynamic_td_defence_fighter_1", "dynamic_td_defence_fighter_2"),
  ("td_landed_per_15_minutes", "td_landed_per_15_minutes_fighter_1", "td_landed_per_15_minutes_fighter_2"),
  ("td_conceded_per_15_minutes", "td_conceded_per_15_minutes_fighter_1", "td_conceded_per_15_minutes_fighter_2"),
  ("career_td_landed (mean)", "career_td_landed_fighter_1 (mean)", "career_td_landed_fighter_2 (mean)"),
  ("career_td_acc", "career_td_accuracy_fighter_1", "career_td_accuracy_fighter_2"),
  ("head_strikes_landed", "head_strikes_landed_fighter_1", "head_strikes_landed_fighter_2"),
  ("head_strikes_attempted", "head_strikes_attempted_fighter_1", "head_strikes_attempted_fighter_2"),
  ("head_strikes_landed_diff", "head_strikes_landed_diff_fighter_1", "head_strikes_landed_diff_fighter_2"),
  ("body_strikes_landed", "body_strikes_landed_fighter_1", "body_strikes_landed_fighter_2"),
  ("body_strikes_attempted", "body_strikes_attempted_fighter_1", "body_strikes_attempted_fighter_2"),
  ("leg_strikes_landed", "leg_strikes_landed_fighter_1", "leg_strikes_landed_fighter_2"),
  ("leg_strikes_attempted", "leg_strikes_attempted_fighter_1", "leg_strikes_attempted_fighter_2"),
  ("distance_strikes_landed", "distance_strikes_landed_fighter_1", "distance_strikes_landed_fighter_2"),
  ("distance_strikes_attempted", "distance_strikes_attempted_fighter_1", "distance_strikes_attempted_fighter_2"),
  ("clinch_strikes_landed", "clinch_strikes_landed_fighter_1", "clinch_strikes_landed_fighter_2"),
  ("clinch_strikes_attempted", "clinch_strikes_attempted_fighter_1", "clinch_strikes_attempted_fighter_2"),
  ("ground_strikes_landed", "ground_strikes_landed_fighter_1", "ground_strikes_landed_fighter_2"),
  ("ground_strikes_attempted", "ground_strikes_attempted_fighter_1", "ground_strikes_attempted_fighter_2"),
  ("ground_strikes_landed_diff", "ground_strikes_landed_diff_fighter_1", "ground_strikes_landed_diff_fighter_2"),
  ("sub_att", "sub_att_fighter_1", "sub_att_fighter_2"),
  ("sub_att_diff", "sub_att_diff_fighter_1", "sub_att_diff_fighter_2"),
  ("rev", "rev_fighter_1", "rev_fighter_2"),
  ("ctrl_in_secs", "ctrl_in_secs_fighter_1", "ctrl_in_secs_fighter_2"),
  ("ctrl_in_secs_diff", "ctrl_in_secs_diff_fighter_1", "ctrl_in_secs_diff_fighter_2"),
  ("age", "fight_day_age (yrs)_fighter_1", "fight_day_age (yrs)_fighter_2"),
  ("height (m)", "Height (m)_fighter_1", "Height (m)_fighter_2"),
  ("reach (in)", "Reach (in)_fighter_1", "Reach (in)_fighter_2")]

/-- The field dictionary of `extract_opponent_details`, entry for entry:
    (career field name, first column read when the subject is side 1,
    column read otherwise). -/
def opponentPairs : List (String × String × String) := [
  ("opponent", "fighter_2", "fighter_1"),
  ("opponent_pre_fight_record_(W-L-D NC)", "pre_fight_record_fighter_2_(W-L-D NC)", "pre_fight_record_fighter_1_(W-L-D NC)"),
  ("opponent_post_fight_record_(W-L-D NC)", "post_fight_record_fighter_2_(W-L-D NC)", "post_fight_record_fighter_1_(W-L-D NC)"),
  ("opponent_result", "fight_result_fighter_2", "fight_result_fighter_1"),
  ("opponent_win_streak", "W/L_streak_fighter_2", "W/L_streak_fighter_1"),
  ("opponent_ude_points_pre_fight", "ude_points_pre_fight_fighter_2", "ude_points_pre_fight_fighter_1"),
  ("opponent_ude_points_post_fight", "ude_points_post_fight_fighter_2", "ude_points_post_fight_fighter_1"),
  ("opponent_ude_points_diff", "ude_points_diff_fighter_2", "ude_points_diff_fighter_1"),
  ("opponent_kd", "kd_fighter_2", "kd_fighter_1"),
  ("opponent_kd_diff", "kd_diff_fighter_2", "kd_diff_fighter_1"),
  ("opponent_sig_strikes_landed", "sig_strikes_landed_fighter_2", "sig_strikes_landed_fighter_1"),
  ("opponent_sig_strikes_attempted", "sig_strikes_attempted_fighter_2", "sig_strikes_attempted_fighter_1"),
  ("opponent_sig_strikes_pct", "sig_strikes_pct_fighter_2", "sig_strikes_pct_fighter_1"),
  ("opponent_sig_strikes_def", "sig_strikes_defense_fighter_2", "sig_strikes_defense_fighter_1"),
  ("opponent_dynamic_sig_strikes_acc", "dynamic_sig_strikes_accuracy_fighter_2", "dynamic_sig_strikes_accuracy_fighter_1"),
  ("opponent_dynamic_sig_strikes_def", "dynamic_sig_strikes_defence_fighter_2", "dynamic_sig_strikes_defence_fighter_1"),
  ("opponent_sig_strikes_landed_per_min", "sig_strikes_landed_per_min_fighter_2", "sig_strikes_landed_per_min_fighter_1"),
  ("opponent_sig_strikes_absorbed_per_min", "sig_strikes_absorbed_per_min_fighter_2", "sig_strikes_absorbed_per_min_fighter_1"),
  ("opponent_sig_strikes_landed_diff", "sig_strikes_landed_diff_fighter_2", "sig_strikes_landed_diff_fighter_1"),
  ("opponent_standing_sig_strikes_landed", "standing_sig_strikes_landed_fighter_2", "standing_sig_strikes_landed_fighter_1"),
  ("opponent_standing_sig_strikes_attempted", "standing_sig_strikes_attempted_fighter_2", "standing_sig_strikes_attempted_fighter_1"),
  ("opponent_standing_sig_strikes_landed_diff", "standing_sig_strikes_landed_diff_fighter_2", "standing_sig_strikes_landed_diff_fighter_1"),
  ("opponent_total_strikes_landed", "total_strikes_landed_fighter_2", "total_strikes_landed_fighter_1"),
  ("opponent_total_strikes_attempted", "total_strikes_attempted_fighter_2", "total_strikes_attempted_fighter_1"),
  ("opponent_career_sig_strikes_landed (mean)", "career_sig_strikes_landed_fighter_2 (mean)", "career_sig_strikes_landed_fighter_1 (mean)"),
  ("opponent_career_sig_striking_acc", "career_sig_striking_accuracy_fighter_2", "career_sig_striking_accuracy_fighter_1"),
  ("opponent_td_landed", "td_landed_fighter_2", "td_landed_fighter_1"),
  ("opponent_td_attempted", "td_attempted_fighter_2", "td_attempted_fighter_1"),
  ("opponent_td_pct", "td_pct_fighter_2", "td_pct_fighter_1"),
  ("opponent_td_def", "td_defense_fighter_2", "td_defense_fighter_1"),
  ("opponent_td_landed_diff", "td_landed_diff_fighter_2", "td_landed_diff_fighter_1"),
  ("opponent_dynamic_td_acc", "dynamic_td_accuracy_fighter_2", "dynamic_td_accuracy_fighter_1"),
  ("opponent_dynamic_td_def", "dynamic_td_defence_fighter_2", "dynamic_td_defence_fighter_1"),
  ("opponent_td_landed_per_15_minutes", "td_landed_per_15_minutes_fighter_2", "td_landed_per_15_minutes_fighter_1"),
  ("opponent_td_conceded_per_15_minutes", "td_conceded_per_15_minutes_fighter_2", "td_conceded_per_15_minutes_fighter_1"),
  ("opponent_career_td_landed (mean)", "career_td_landed_fighter_2 (mean)", "career_td_landed_fighter_1 (mean)"),
  ("opponent_career_td_acc", "career_td_accuracy_fighter_2", "career_td_accuracy_fighter_1"),
  ("opponent_head_strikes_landed", "head_strikes_landed_fighter_2", "head_strikes_landed_fighter_1"),
  ("opponent_head_strikes_attempted", "head_strikes_attempted_fighter_2", "head_strikes_attempted_fighter_1"),
  ("opponent_head_strikes_landed_diff", "head_strikes_landed_diff_fighter_2", "head_strikes_landed_diff_fighter_1"),
  ("opponent_body_strikes_landed", "body_strikes_landed_fighter_2", "body_strikes_landed_fighter_1"),
  ("opponent_body_strikes_attempted", "body_strikes_attempted_fighter_2", "body_strikes_attempted_fighter_1"),
  ("opponent_leg_strikes_landed", "leg_strikes_landed_fighter_2", "leg_strikes_landed_fighter_1"),
  ("opponent_leg_strikes_attempted", "leg_strikes_attempted_fighter_2", "leg_strikes_attempted_fighter_1"),
  ("opponent_distance_strikes_landed", "distance_strikes_landed_fighter_2", "distance_strikes_landed_fighter_1"),
  ("opponent_distance_strikes_attempted", "distance_strikes_attempted_fighter_2", "distance_strikes_attempted_fighter_1"),
  ("opponent_clinch_strikes_landed", "clinch_strikes_landed_fighter_2", "clinch_strikes_landed_fighter_1"),
  ("opponent_clinch_strikes_attempted", "clinch_strikes_attempted_fighter_2", "clinch_strikes_attempted_fighter_1"),
  ("opponent_ground_strikes_landed", "ground_strikes_landed_fighter_2", "ground_strikes_landed_fighter_1"),
  ("opponent_ground_strikes_attempted", "ground_strikes_attempted_fighter_2", "ground_strikes_attempted_fighter_1"),
  ("opponent_ground_strikes_landed_diff", "ground_strikes_landed_diff_fighter_2", "ground_strikes_landed_diff_fighter_1"),
  ("opponent_sub_att", "sub_att_fighter_2", "sub_att_fighter_1"),
  ("opponent_sub_att_diff", "sub_att_diff_fighter_2", "sub_att_diff_fighter_1"),
  ("opponent_rev", "rev_fighter_2", "rev_fighter_1"),
  ("opponent_ctrl_in_secs", "ctrl_in_secs_fighter_2", "ctrl_in_secs_fighter_1"),
  ("opponent_ctrl_in_secs_diff", "ctrl_in_secs_diff_fighter_2", "ctrl_in_secs_diff_fighter_1"),
  ("opponent_age", "fight_day_age (yrs)_fighter_2", "fight_day_age (yrs)_fighter_1"),
  ("opponent_height (m)", "Height (m)_fighter_2", "Height (m)_fighter_1"),
  ("opponent_reach (in)", "Reach (in)_fighter_2", "Reach (in)_fighter_1")]

/-- The per-row mask `df['fighter_1'] == fighter_name`. -/
def isF1 (r : Row) (fighterName : String) : Bool :=
  rowGet r "fighter_1" = some (.str fighterName)

/-- `filter_fighter_fights`: keep the rows naming the fighter on either side.
    (`df['fighter_1']` / `df['fighter_2']` raise `KeyError` on a missing
    column; `.copy()` makes the result a fresh table.) -/
def filter_fighter_fights (df : Table) (fighterName : String) : Except String Table :=
  if ¬ df.cols.contains "fighter_1" then .error "KeyError: fighter_1"
  else if ¬ df.cols.contains "fighter_2" then .error "KeyError: fighter_2"
  else .ok ⟨df.cols, df.rows.filter (fun r =>
    rowGet r "fighter_1" = some (.str fighterName) ∨
    rowGet r "fighter_2" = some (.str fighterName))⟩

/-- One output row of the `apply` dictionary: for each (field, side-1 column,
    side-2 column) entry, read the fighter's own side (or, for
    `opponentPairs`, the opposite side first). -/
def detailRow (pairs : List (String × String × String)) (fighterName : String)
    (r : Row) : Except String Row :=
  mapE (fun p => do
    let v ← getV r (if isF1 r fighterName then p.2.1 else p.2.2)
    pure (p.1, v)) pairs

/-- `df.apply(f, axis=1, result_type='expand')`: applies the row function;
    on a frame with zero rows pandas returns a copy of the input frame
    (with its original columns). The output columns are the keys of the
    produced dictionaries. -/
def applyExpand (df : Table) (f : Row → Except String Row) : Except String Table :=
  match df.rows with
  | [] => .ok ⟨df.cols, []⟩
  | _ => do
    let rs ← mapE f df.rows
    .ok ⟨(rs.headD []).map Prod.fst, rs⟩

def extract_fighter_details (df : Table) (fighterName : String) : Except String Table :=
  applyExpand df (detailRow fighterPairs fighterName)

def extract_opponent_details (df : Table) (fighterName : String) : Except String Table :=
  applyExpand df (detailRow opponentPairs fighterName)

/-- `df[[cols]]` on one row. -/
def selectRow (cs : List String) (r : Row) : Except String Row :=
  mapE (fun c => do
    let v ← getV r c
    pure (c, v)) cs

/-- `df[[cols]]`: raises `KeyError` when a requested column is absent. -/
def selectTable (df : Table) (cs : List String) : Except String Table :=
  if ¬ cs.all (df.cols.contains ·) then .error "KeyError"
  else do
    let rs ← mapE (selectRow cs) df.rows
    .ok ⟨cs, rs⟩

/-- `reorganize_fight_data`: `pd.concat([df[shared], fighter_details,
    opponent_details], axis=1)`; rows share the same index, so the
    concatenation appends the three row fragments position by position. -/
def reorganize_fight_data (df fighterDetails opponentDetails : Table) :
    Except String Table := do
  let sh ← selectTable df sharedCols
  .ok ⟨sh.cols ++ fighterDetails.cols ++ opponentDetails.cols,
       (sh.rows.zip (fighterDetails.rows.zip opponentDetails.rows)).map
         (fun a => a.1 ++ a.2.1 ++ a.2.2)⟩

/-- Sort key of `sort_values(by='event_date', ...)`: a numeric date, with
    missing dates ordered last (pandas `na_position='last'`). -/
def dateKey (r : Row) : Option ℤ :=
  match rowGet r "event_date" with
  | some (.num q) => some q
  | _ => none

/-- `b` may come after `a` in a descending `event_date` sort. -/
def dateGE (a b : Row) : Prop :=
  (match dateKey b, dateKey a with
   | none, _ => true
   | some _, none => false
   | some x, some y => decide (x ≤ y)) = true

instance : DecidableRel dateGE := fun a b => by
  unfold dateGE; infer_instance

/-- `sort_values(by='event_date', ascending=False)` modelled as a sort by
    the descending date order (the source's quicksort leaves tie order
    unspecified; no claim depends on it). -/
def sortRows (rs : List Row) : List Row :=
  rs.insertionSort dateGE

/-- The three differential assignments of `create_diff_columns` on one row. -/
def diffRow (r : Row) : Except String Row := do
  let hv ← getV r "height (m)"
  let ohv ← getV r "opponent_height (m)"
  let hd ← vsub hv ohv
  let rv ← getV r "reach (in)"
  let orv ← getV r "opponent_reach (in)"
  let rd ← vsub rv orv
  let av ← getV r "age"
  let oav ← getV r "opponent_age"
  let ad ← vsub av oav
  pure (rowSet (rowSet (rowSet r "height_diff" hd) "reach_diff" rd) "age_diff" ad)

/-- `create_diff_columns`: each column read on the right-hand side of an
    assignment raises `KeyError` when absent (checked in source order, which
    is what a call on a zero-fight career table hits); then the three
    differences are computed and the table is sorted by `event_date`
    descending. -/
def create_diff_columns (df : Table) : Except String Table :=
  if ¬ df.cols.contains "height (m)" then .error "KeyError: height (m)"
  else if ¬ df.cols.contains "opponent_height (m)" then .error "KeyError: opponent_height (m)"
  else if ¬ df.cols.contains "reach (in)" then .error "KeyError: reach (in)"
  else if ¬ df.cols.contains "opponent_reach (in)" then .error "KeyError: opponent_reach (in)"
  else if ¬ df.cols.contains "age" then .error "KeyError: age"
  else if ¬ df.cols.contains "opponent_age" then .error "KeyError: opponent_age"
  else do
    let rs ← mapE diffRow df.rows
    .ok ⟨df.cols ++ ["height_diff", "reach_diff", "age_diff"], sortRows rs⟩

/-- `create_fighter_career_dataset`. -/
def create_fighter_career_dataset (df : Table) (fighterName : String) :
    Except String Table := do
  let ff ← filter_fighter_fights df fighterName
  let fd ← extract_fighter_details ff fighterName
  let od ← extract_opponent_details ff fighterName
  let merged ← reorganize_fight_data ff fd od
  create_diff_columns merged

/-- The numeric entries of a column (the values pandas aggregations keep:
    `NaN` is skipped by `sum`/`mean`/`median`). -/
def presentNums (vs : List Value) : List ℤ :=
  vs.filterMap (fun v => match v with | .num q => some q | _ => none)

/-- A whole column of a table. -/
def getColVals (df : Table) (c : String) : Except String (List Value) :=
  if ¬ df.cols.contains c then .error ("KeyError: " ++ c)
  else mapE (fun r => getV r c) df.rows

/-- `Series.sum()`: skips missing values; the empty / all-missing sum is `0`. -/
def colSum (vs : List Value) : Except String Value :=
  if vs.any (fun v => match v with | .str _ => true | _ => false) then .error "TypeError"
  else .ok (.num (presentNums vs).sum)

/-- `Series.mean()`: exact mean of the present values; `none` is `NaN`
    (no value present). -/
def colMean (vs : List Value) : Except String (Option ℚ) :=
  if vs.any (fun v => match v with | .str _ => true | _ => false) then .error "TypeError"
  else if (presentNums vs).length = 0 then .ok none
  else .ok (some (mkRat (presentNums vs).sum (presentNums vs).length))

/-- `Series.median()`: median of the present values (sorted; mean of the two
    middle entries on even length); `none` is `NaN` (no value present). -/
def colMedian (vs : List Value) : Except String (Option ℚ) :=
  if vs.any (fun v => match v with | .str _ => true | _ => false) then .error "TypeError"
  else
    let sorted := (presentNums vs).insertionSort (· ≤ ·)
    let n := sorted.length
    if n = 0 then .ok none
    else if n % 2 = 1 then .ok (some (mkRat (sorted.getD (n / 2) 0) 1))
    else .ok (some (mkRat (sorted.getD (n / 2 - 1) 0 + sorted.getD (n / 2) 0) 2))

/-- `fighter_stats`: the career table together with the sum, count, mean and
    median of `opponent_sig_strikes_landed`. -/
def fighter_stats (df : Table) (fighterName : String) :
    Except String (Table × Value × Nat × Option ℚ × Option ℚ) := do
  let fs ← create_fighter_career_dataset df fighterName
  let col ← getColVals fs "opponent_sig_strikes_landed"
  let totalAbsorbed ← colSum col
  let totalFights := fs.rows.length
  let meanAbsorbed ← colMean col
  let medianAbsorbed ← colMedian col
  pure (fs, totalAbsorbed, totalFights, meanAbsorbed, medianAbsorbed)

/-- `filter_title_bouts`: `df[df['is_title_bout'] == 2].copy()`. -/
def filter_title_bouts (df : Table) : Except String Table :=
  if ¬ df.cols.contains "is_title_bout" then .error "KeyError: is_title_bout"
  else .ok ⟨df.cols, df.rows.filter (fun r => rowGet r "is_title_bout" = some (.num 2))⟩

/-- `determine_champion` on one row: side 1 first, else side 2, else `None`
    (vacant). -/
def determine_champion (r : Row) : Except String (Option Value) := do
  let f1 ← getV r "is_champion_fighter_1"
  if f1 = .num 2 then do
    let c ← getV r "fighter_1"
    pure (some c)
  else do
    let f2 ← getV r "is_champion_fighter_2"
    if f2 = .num 2 then do
      let c ← getV r "fighter_2"
      pure (some c)
    else pure none

/-- `determine_contender` on one row. -/
def determine_contender (r : Row) : Except String (Option Value) := do
  let f1 ← getV r "is_champion_fighter_1"
  if f1 = .num 2 then do
    let c ← getV r "fighter_2"
    pure (some c)
  else do
    let f2 ← getV r "is_champion_fighter_2"
    if f2 = .num 2 then do
      let c ← getV r "fighter_1"
      pure (some c)
    else pure none

/-- One champion/contender stat assignment of `assign_champion_contender_stats`:
    `col1 if who == row['fighter_1'] else (col2 if who == row['fighter_2']
    else None)` — the stat columns are only read in the branch actually
    taken (Python conditional expressions are lazy). -/
def statFor (r : Row) (who : Value) (firstName firstCol secondName secondCol : String) :
    Except String Value := do
  let f ← getV r firstName
  if veq who f then getV r firstCol
  else do
    let s ← getV r secondName
    if veq who s then getV r secondCol
    else pure .null

/-- The champion/contender row produced for one title bout:
    `assign_champion_contender`, `assign_champion_contender_stats` and
    `select_title_bout_columns` composed row-wise (each source step is a
    row-wise `apply`/assignment, so the composition per row is faithful;
    only the interleaving of errors across different rows is not modelled). -/
def ccRowFun (r : Row) : Except String Row := do
  let champRaw ← determine_champion r
  let contRaw ← determine_contender r
  -- `title_bouts.loc[title_bouts['champion'].isnull(), 'champion'] = 'Vacant'`:
  -- a `None` (vacant) or missing-name champion cell becomes the sentinel.
  let champion := match champRaw with
    | none => Value.str "Vacant"
    | some v => if v = Value.null then Value.str "Vacant" else v
  let contender := match contRaw with
    | none => Value.null
    | some v => v
  let champAge ← statFor r champion "fighter_1" "fight_day_age (yrs)_fighter_1"
    "fighter_2" "fight_day_age (yrs)_fighter_2"
  let champStreak ← statFor r champion "fighter_1" "W/L_streak_fighter_1"
    "fighter_2" "W/L_streak_fighter_2"
  let champResult ← statFor r champion "fighter_1" "fight_result_fighter_1"
    "fighter_2" "fight_result_fighter_2"
  -- contender stats test `fighter_2` first (source order)
  let contAge ← statFor r contender "fighter_2" "fight_day_age (yrs)_fighter_2"
    "fighter_1" "fight_day_age (yrs)_fighter_1"
  let contStreak ← statFor r contender "fighter_2" "W/L_streak_fighter_2"
    "fighter_1" "W/L_streak_fighter_1"
  let contResult ← statFor r contender "fighter_2" "fight_result_fighter_2"
    "fighter_1" "fight_result_fighter_1"
  -- vacant mask: champion stats forced to missing
  let vacant := champion = Value.str "Vacant"
  let champAge := if vacant then Value.null else champAge
  let champStreak := if vacant then Value.null else champStreak
  let champResult := if vacant then Value.null else champResult
  let en ← getV r "event_name"
  let ed ← getV r "event_date"
  pure [("event_name", en), ("event_date", ed), ("champion", champion),
        ("contender", contender), ("champion_age", champAge),
        ("contender_age", contAge), ("champion_W/L_streak", champStreak),
        ("contender_W/L_streak", contStreak), ("champion_result", champResult),
        ("contender_result", contResult)]

def titleBoutCols : List String := [
  "event_name", "event_date", "champion", "contender",
  "champion_age", "contender_age",
  "champion_W/L_streak", "contender_W/L_streak",
  "champion_result", "contender_result"]

/-- `filter_vacant_title_bouts`: title bouts where neither `is_champion`
    flag equals 2. -/
def filter_vacant_title_bouts (df : Table) : Except String Table :=
  if ¬ df.cols.contains "is_champion_fighter_1" then .error "KeyError: is_champion_fighter_1"
  else if ¬ df.cols.contains "is_champion_fighter_2" then .error "KeyError: is_champion_fighter_2"
  else if ¬ df.cols.contains "is_title_bout" then .error "KeyError: is_title_bout"
  else .ok ⟨df.cols, df.rows.filter (fun r =>
    rowGet r "is_title_bout" = some (.num 2) ∧
    ¬ rowGet r "is_champion_fighter_1" = some (.num 2) ∧
    ¬ rowGet r "is_champion_fighter_2" = some (.num 2))⟩

/-- The column renaming of `assign_vacant_contenders`. -/
def renameVacant (c : String) : String :=
  if c = "fighter_1" then "contender_a"
  else if c = "fighter_2" then "contender_b"
  else if c = "fight_day_age (yrs)_fighter_1" then "contender_a_age"
  else if c = "fight_day_age (yrs)_fighter_2" then "contender_b_age"
  else if c = "W/L_streak_fighter_1" then "contender_a_W/L_streak"
  else if c = "W/L_streak_fighter_2" then "contender_b_W/L_streak"
  else if c = "fight_result_fighter_1" then "contender_a_result"
  else if c = "fight_result_fighter_2" then "contender_b_result"
  else c

def renameRow (r : Row) : Row := r.map (fun e => (renameVacant e.1, e.2))

def vacantCols : List String := [
  "event_name", "event_date", "contender_a", "contender_b",
  "contender_a_age", "contender_b_age",
  "contender_a_W/L_streak", "contender_b_W/L_streak",
  "contender_a_result", "contender_b_result"]

/-- `create_title_bouts_datasets`: the champion/contender view over all
    title bouts, and the vacant view over the vacant title bouts. -/
def create_title_bouts_datasets (df : Table) :
    Except String (Table × Table) := do
  let tb ← filter_title_bouts df
  let ccRows ← mapE ccRowFun tb.rows
  let vb ← filter_vacant_title_bouts df
  let vacRows ← mapE (fun r => selectRow vacantCols (renameRow r)) vb.rows
  .ok (⟨titleBoutCols, ccRows⟩, ⟨vacantCols, vacRows⟩)

/-! ### Aliasing model for the purity claim

Each `*_run` definition returns, next to the computed result, the state of
the caller's table after the call. The source filters with `.copy()`
(`filter_fighter_fights`, `filter_title_bouts`, `filter_vacant_title_bouts`),
so every in-place mutation further down the pipeline (`apply` assignments,
`rename(inplace=True)`, column additions) acts on that fresh copy and the
caller's table comes back exactly as it went in. -/

def filter_fighter_fights_run (df : Table) (fighterName : String) :
    Except String Table × Table :=
  (filter_fighter_fights df fighterName, df)

def create_fighter_career_dataset_run (df : Table) (fighterName : String) :
    Except String Table × Table :=
  let fr := filter_fighter_fights_run df fighterName
  (fr.1.bind (fun ff => do
    let fd ← extract_fighter_details ff fighterName
    let od ← extract_opponent_details ff fighterName
    let merged ← reorganize_fight_data ff fd od
    create_diff_columns merged), fr.2)

def filter_title_bouts_run (df : Table) : Except String Table × Table :=
  (filter_title_bouts df, df)

def filter_vacant_title_bouts_run (df : Table) : Except String Table × Table :=
  (filter_vacant_title_bouts df, df)

def create_title_bouts_datasets_run (df : Table) :
    Except String (Table × Table) × Table :=
  let t1 := filter_title_bouts_run df
  let t2 := filter_vacant_title_bouts_run t1.2
  ((do
    let tb ← t1.1
    let ccRows ← mapE ccRowFun tb.rows
    let vb ← t2.1
    let vacRows ← mapE (fun r => selectRow vacantCols (renameRow r)) vb.rows
    .ok (⟨titleBoutCols, ccRows⟩, ⟨vacantCols, vacRows⟩)), t2.2)

/-! ### Concrete sample tables (used by witnesses and counterexamples) -/

def sampleStatEntries : List (String × Value) :=
  fighterPairs.map (fun p => (p.2.1, Value.num 1)) ++
    fighterPairs.map (fun p => (p.2.2, Value.num 2))

def sampleSharedEntries : List (String × Value) :=
  sharedCols.map (fun c => (c, Value.num 5))

/-- A schema-complete bout row: fighter names, an event date, and every
    shared / per-side statistic column (side 1 stats `1`, side 2 stats `2`). -/
def sampleBout (f1 f2 : String) (d : ℤ) : Row :=
  ("fighter_1", Value.str f1) :: ("fighter_2", Value.str f2) ::
    ("event_date", Value.num d) :: ("event_name", Value.str "UFC 1") ::
    (sampleSharedEntries ++ sampleStatEntries)

def sampleCols : List String := (sampleBout "A" "B" 0).map Prod.fst

def sampleTable : Table := ⟨sampleCols, [sampleBout "A" "B" 3, sampleBout "C" "A" 7]⟩

def sampleTitleBout (f1 f2 : String) (c1 c2 : ℤ) : Row :=
  ("is_title_bout", Value.num 2) :: ("is_champion_fighter_1", Value.num c1) ::
    ("is_champion_fighter_2", Value.num c2) :: sampleBout f1 f2 0

def sampleTitleCols : List String := (sampleTitleBout "A" "B" 0 0).map Prod.fst


/-! ### Basic inversion and lookup lemmas -/

theorem bind_ok {α β : Type} {a : Except String α} {f : α → Except String β} {y : β} :
    (a >>= f) = .ok y ↔ ∃ v, a = .ok v ∧ f v = .ok y := by
  cases a <;> simp [Bind.bind, Except.bind]

theorem mapE_ok_iff {α β : Type} {f : α → Except String β} :
    ∀ {xs : List α} {ys : List β},
      mapE f xs = .ok ys ↔ List.Forall₂ (fun x y => f x = .ok y) xs ys := by
  intro xs
  induction xs with
  | nil =>
    intro ys
    constructor
    · intro h
      cases h
      exact List.Forall₂.nil
    · intro h
      cases h
      rfl
  | cons x xs ih =>
    intro ys
    constructor
    · intro h
      rw [mapE, bind_ok] at h
      obtain ⟨y, hy, h⟩ := h
      rw [bind_ok] at h
      obtain ⟨zs, hzs, h⟩ := h
      cases h
      exact List.Forall₂.cons hy (ih.mp hzs)
    · intro h
      cases h with
      | cons hy hzs =>
        rw [mapE, bind_ok]
        exact ⟨_, hy, by rw [bind_ok]; exact ⟨_, ih.mpr hzs, rfl⟩⟩

theorem getV_ok_iff {r : Row} {c : String} {v : Value} :
    getV r c = .ok v ↔ rowGet r c = some v := by
  unfold getV
  cases rowGet r c <;> simp

theorem rowGet_append_left {a : Row} {c : String} {v : Value} (b : Row)
    (h : rowGet a c = some v) : rowGet (a ++ b) c = some v := by
  induction a with
  | nil => cases h
  | cons e t ih =>
    obtain ⟨k, w⟩ := e
    rw [rowGet] at h
    rw [List.cons_append, rowGet]
    by_cases hk : k = c
    · simpa [hk] using h
    · rw [if_neg hk] at h ⊢
      exact ih h

theorem rowGet_append_right {a : Row} {c : String} (b : Row)
    (h : rowGet a c = none) : rowGet (a ++ b) c = rowGet b c := by
  induction a with
  | nil => rfl
  | cons e t ih =>
    obtain ⟨k, w⟩ := e
    rw [rowGet] at h
    rw [List.cons_append, rowGet]
    by_cases hk : k = c
    · simp [hk] at h
    · rw [if_neg hk] at h ⊢
      exact ih h

theorem rowGet_rowSet_self (r : Row) (c : String) (v : Value) :
    rowGet (rowSet r c v) c = some v := by
  induction r with
  | nil => simp [rowSet, rowGet]
  | cons e t ih =>
    obtain ⟨k, w⟩ := e
    by_cases hk : k = c
    · simp [rowSet, hk, rowGet]
    · simp only [rowSet, if_neg hk, rowGet, if_neg hk]
      exact ih

theorem rowGet_rowSet_ne (r : Row) {c c' : String} (v : Value) (h : c ≠ c') :
    rowGet (rowSet r c v) c' = rowGet r c' := by
  induction r with
  | nil => simp only [rowSet, rowGet, if_neg h]
  | cons e t ih =>
    obtain ⟨k, w⟩ := e
    by_cases hk : k = c
    · subst hk
      simp only [rowSet, if_pos rfl, rowGet]
      rw [if_neg h, if_neg h]
    · simp only [rowSet, if_neg hk, rowGet]
      by_cases hk' : k = c'
      · rw [if_pos hk', if_pos hk']
      · rw [if_neg hk', if_neg hk']
        exact ih

/-- Looking up a key of a keyed build (`Forall₂` between a pair list and the
    produced row): the first matching entry carries the built value. -/
theorem rowGet_of_forall₂ {α : Type} (keyOf : α → String) (V : α → Value → Prop)
    {pairs : List α} {out : Row}
    (h : List.Forall₂ (fun p e => e.1 = keyOf p ∧ V p e.2) pairs out)
    (hnd : (pairs.map keyOf).Nodup) {p : α} (hp : p ∈ pairs) :
    ∃ v, rowGet out (keyOf p) = some v ∧ V p v := by
  induction h with
  | nil => cases hp
  | @cons q e qs es hqe hrest ih =>
    rw [List.map_cons, List.nodup_cons] at hnd
    cases hp with
    | head =>
      obtain ⟨e1, e2⟩ := e
      obtain ⟨hk, hv⟩ := hqe
      exact ⟨e2, by rw [rowGet, if_pos hk], hv⟩
    | tail _ hmem =>
      obtain ⟨v, hv, hV⟩ := ih hnd.2 hmem
      refine ⟨v, ?_, hV⟩
      obtain ⟨e1, e2⟩ := e
      have hk : e1 = keyOf q := hqe.1
      rw [rowGet, if_neg, hv]
      rw [hk]
      intro hcontra
      exact hnd.1 (hcontra ▸ List.mem_map_of_mem keyOf hmem)

theorem rowGet_of_forall₂_none {α : Type} (keyOf : α → String) (V : α → Value → Prop)
    {pairs : List α} {out : Row}
    (h : List.Forall₂ (fun p e => e.1 = keyOf p ∧ V p e.2) pairs out)
    {c : String} (hc : c ∉ pairs.map keyOf) : rowGet out c = none := by
  induction h with
  | nil => rfl
  | @cons q e qs es hqe hrest ih =>
    rw [List.map_cons, List.mem_cons] at hc
    push_neg at hc
    obtain ⟨e1, e2⟩ := e
    have hk : e1 = keyOf q := hqe.1
    rw [rowGet, if_neg, ih hc.2]
    rw [hk]
    exact fun hcontra => hc.1 hcontra.symm

/-! ### Characterizations of the row-building steps -/

theorem detailRow_forall₂ {pairs : List (String × String × String)}
    {fighterName : String} {r out : Row}
    (h : detailRow pairs fighterName r = .ok out) :
    List.Forall₂ (fun (p : String × String × String) (e : String × Value) =>
      e.1 = p.1 ∧ rowGet r (if isF1 r fighterName then p.2.1 else p.2.2) = some e.2)
      pairs out := by
  unfold detailRow at h
  refine (mapE_ok_iff.mp h).imp ?_
  intro p e hp
  rw [bind_ok] at hp
  obtain ⟨v, hv, he⟩ := hp
  cases he
  exact ⟨rfl, getV_ok_iff.mp hv⟩

theorem selectRow_forall₂ {cs : List String} {r out : Row}
    (h : selectRow cs r = .ok out) :
    List.Forall₂ (fun (c : String) (e : String × Value) =>
      e.1 = c ∧ rowGet r c = some e.2) cs out := by
  unfold selectRow at h
  refine (mapE_ok_iff.mp h).imp ?_
  intro c e hp
  rw [bind_ok] at hp
  obtain ⟨v, hv, he⟩ := hp
  cases he
  exact ⟨rfl, getV_ok_iff.mp hv⟩

/-- Looking a handled field up in the row built by `detailRow` reads exactly
    the chosen side's column of the input row. -/
theorem detailRow_rowGet {pairs : List (String × String × String)}
    {fighterName : String} {r out : Row}
    (h : detailRow pairs fighterName r = .ok out)
    (hnd : (pairs.map (fun p => p.1)).Nodup)
    {p : String × String × String} (hp : p ∈ pairs) :
    rowGet out p.1 = rowGet r (if isF1 r fighterName then p.2.1 else p.2.2) := by
  obtain ⟨v, hv, hV⟩ := rowGet_of_forall₂ (fun p => p.1)
    (fun (p : String × String × String) v =>
      rowGet r (if isF1 r fighterName then p.2.1 else p.2.2) = some v)
    (detailRow_forall₂ h) hnd hp
  rw [hv, hV]

theorem detailRow_rowGet_none {pairs : List (String × String × String)}
    {fighterName : String} {r out : Row}
    (h : detailRow pairs fighterName r = .ok out)
    {c : String} (hc : c ∉ pairs.map (fun p => p.1)) : rowGet out c = none :=
  rowGet_of_forall₂_none (fun p => p.1)
    (fun (p : String × String × String) v =>
      rowGet r (if isF1 r fighterName then p.2.1 else p.2.2) = some v)
    (detailRow_forall₂ h) hc

theorem selectRow_rowGet {cs : List String} {r out : Row}
    (h : selectRow cs r = .ok out) (hnd : cs.Nodup) {c : String} (hc : c ∈ cs) :
    rowGet out c = rowGet r c := by
  obtain ⟨v, hv, hV⟩ := rowGet_of_forall₂ (fun c => c)
    (fun c v => rowGet r c = some v) (selectRow_forall₂ h)
    (by simpa using hnd) hc
  rw [hv, hV]

theorem selectRow_rowGet_none {cs : List String} {r out : Row}
    (h : selectRow cs r = .ok out) {c : String} (hc : c ∉ cs) : rowGet out c = none :=
  rowGet_of_forall₂_none (fun c => c)
    (fun c v => rowGet r c = some v) (selectRow_forall₂ h) (by simpa using hc)

set_option maxRecDepth 4000 in
theorem fighterPairs_keys_nodup : (fighterPairs.map (fun p => p.1)).Nodup := by decide

set_option maxRecDepth 4000 in
theorem opponentPairs_keys_nodup : (opponentPairs.map (fun p => p.1)).Nodup := by decide

theorem sharedCols_nodup : sharedCols.Nodup := by decide

set_option maxRecDepth 4000 in
/-- The two hand-enumerated dictionaries of the source mirror each other:
    entry by entry, the opponent dictionary reads exactly the columns of the
    fighter dictionary with the two sides swapped. -/
theorem pairs_mirror : ∀ pq ∈ fighterPairs.zip opponentPairs,
    pq.2.2.1 = pq.1.2.2 ∧ pq.2.2.2 = pq.1.2.1 := by decide

/-! ### The descending date sort -/

theorem dateGE_total : ∀ a b : Row, dateGE a b ∨ dateGE b a := by
  intro a b
  unfold dateGE
  rcases dateKey a with _ | x <;> rcases dateKey b with _ | y <;> simp
  exact le_total y x

theorem dateGE_trans : ∀ a b c : Row, dateGE a b → dateGE b c → dateGE a c := by
  intro a b c
  unfold dateGE
  rcases dateKey a with _ | x <;> rcases dateKey b with _ | y <;>
    rcases dateKey c with _ | z <;> simp
  exact fun h1 h2 => h2.trans h1

instance : IsTotal Row dateGE := ⟨dateGE_total⟩

instance : IsTrans Row dateGE := ⟨dateGE_trans⟩

theorem sortRows_perm (rs : List Row) : (sortRows rs).Perm rs :=
  List.perm_insertionSort dateGE rs

theorem sortRows_sorted (rs : List Row) : List.Sorted dateGE (sortRows rs) :=
  List.sorted_insertionSort dateGE rs

/-! ### Composing the career pipeline row-wise -/

/-- The whole per-row career transformation: shared columns, the fighter's
    own-side fields, the opponent's other-side fields, then the three
    differential columns. -/
def careerRowFun (fighterName : String) (r : Row) : Except String Row := do
  let sh ← selectRow sharedCols r
  let fd ← detailRow fighterPairs fighterName r
  let od ← detailRow opponentPairs fighterName r
  diffRow (sh ++ fd ++ od)

theorem mapE_append3 {α : Type} {f g h : α → Except String Row} :
    ∀ {xs : List α} {as bs cs : List Row},
      mapE f xs = .ok as → mapE g xs = .ok bs → mapE h xs = .ok cs →
      mapE (fun x => do
        let a ← f x
        let b ← g x
        let c ← h x
        pure (a ++ b ++ c)) xs = .ok ((as.zip (bs.zip cs)).map
          (fun a => a.1 ++ a.2.1 ++ a.2.2)) := by
  intro xs
  induction xs with
  | nil =>
    intro as bs cs ha hb hc
    cases ha; cases hb; cases hc
    rfl
  | cons x xs ih =>
    intro as bs cs ha hb hc
    rw [mapE, bind_ok] at ha hb hc
    obtain ⟨a, ha1, ha⟩ := ha
    obtain ⟨b, hb1, hb⟩ := hb
    obtain ⟨c, hc1, hc⟩ := hc
    rw [bind_ok] at ha hb hc
    obtain ⟨as', has, ha⟩ := ha
    obtain ⟨bs', hbs, hb⟩ := hb
    obtain ⟨cs', hcs, hc⟩ := hc
    cases ha; cases hb; cases hc
    rw [mapE, bind_ok]
    refine ⟨a ++ b ++ c, ?_, ?_⟩
    · rw [ha1, hb1, hc1]
      rfl
    · rw [bind_ok]
      exact ⟨_, ih has hbs hcs, rfl⟩

theorem mapE_comp {α β γ : Type} {f : α → Except String β} {g : β → Except String γ} :
    ∀ {xs : List α} {ys : List β} {zs : List γ},
      mapE f xs = .ok ys → mapE g ys = .ok zs →
      mapE (fun x => (f x).bind g) xs = .ok zs := by
  intro xs
  induction xs with
  | nil =>
    intro ys zs h1 h2
    cases h1
    cases h2
    rfl
  | cons x xs ih =>
    intro ys zs h1 h2
    rw [mapE, bind_ok] at h1
    obtain ⟨y, hy, h1⟩ := h1
    rw [bind_ok] at h1
    obtain ⟨ys', hys, h1⟩ := h1
    cases h1
    rw [mapE, bind_ok] at h2
    obtain ⟨z, hz, h2⟩ := h2
    rw [bind_ok] at h2
    obtain ⟨zs', hzs, h2⟩ := h2
    cases h2
    rw [mapE, bind_ok]
    refine ⟨z, ?_, ?_⟩
    · show Except.bind (f x) g = .ok z
      rw [hy]
      exact hz
    · rw [bind_ok]
      exact ⟨_, ih hys hzs, rfl⟩

theorem mapE_congr {α β : Type} {f g : α → Except String β} (h : ∀ a, f a = g a) :
    ∀ xs, mapE f xs = mapE g xs := by
  intro xs
  induction xs with
  | nil => rfl
  | cons x xs ih => rw [mapE, mapE, h x, ih]

theorem careerRowFun_eq (fighterName : String) (r : Row) :
    careerRowFun fighterName r =
      ((do
        let sh ← selectRow sharedCols r
        let fd ← detailRow fighterPairs fighterName r
        let od ← detailRow opponentPairs fighterName r
        pure (sh ++ fd ++ od) : Except String Row)).bind diffRow := by
  unfold careerRowFun
  cases selectRow sharedCols r with
  | error e => rfl
  | ok sh =>
    cases detailRow fighterPairs fighterName r with
    | error e => rfl
    | ok fd =>
      cases detailRow opponentPairs fighterName r with
      | error e => rfl
      | ok od => rfl

/-- Success characterization of `create_fighter_career_dataset`: the rows of
    the result are exactly the filtered input rows pushed through the
    per-row career transformation, sorted by descending event date (with the
    zero-matching-rows path producing no rows when it survives at all). -/
theorem career_spec {df : Table} {fighterName : String} {out : Table}
    (h : create_fighter_career_dataset df fighterName = .ok out) :
    ∃ ft, filter_fighter_fights df fighterName = .ok ft ∧
      ((ft.rows = [] ∧ out.rows = []) ∨
        ∃ rs, mapE (careerRowFun fighterName) ft.rows = .ok rs ∧
          out.rows = sortRows rs) := by
  unfold create_fighter_career_dataset at h
  rw [bind_ok] at h
  obtain ⟨ft, hft, h⟩ := h
  rw [bind_ok] at h
  obtain ⟨fd, hfd, h⟩ := h
  rw [bind_ok] at h
  obtain ⟨od, hod, h⟩ := h
  rw [bind_ok] at h
  obtain ⟨merged, hmerged, h⟩ := h
  refine ⟨ft, hft, ?_⟩
  unfold reorganize_fight_data at hmerged
  rw [bind_ok] at hmerged
  obtain ⟨sh, hsh, hmerged⟩ := hmerged
  cases hmerged
  unfold selectTable at hsh
  split at hsh
  · cases hsh
  · rw [bind_ok] at hsh
    obtain ⟨shRows, hshRows, hsh⟩ := hsh
    cases hsh
    unfold create_diff_columns at h
    split at h
    · cases h
    · split at h
      · cases h
      · split at h
        · cases h
        · split at h
          · cases h
          · split at h
            · cases h
            · split at h
              · cases h
              · rw [bind_ok] at h
                obtain ⟨diffRows, hdiffRows, h⟩ := h
                cases h
                unfold extract_fighter_details applyExpand at hfd
                unfold extract_opponent_details applyExpand at hod
                cases hrows : ft.rows with
                | nil =>
                  rw [hrows] at hfd hod hshRows
                  simp only [mapE] at hshRows
                  cases hshRows
                  cases hfd
                  cases hod
                  simp only [mapE] at hdiffRows
                  simp at hdiffRows
                  cases hdiffRows
                  exact Or.inl ⟨rfl, rfl⟩
                | cons r0 rest =>
                  rw [hrows] at hfd hod hshRows
                  rw [bind_ok] at hfd hod
                  obtain ⟨fdRows, hfdRows, hfd⟩ := hfd
                  obtain ⟨odRows, hodRows, hod⟩ := hod
                  cases hfd
                  cases hod
                  refine Or.inr ⟨diffRows, ?_, rfl⟩
                  have hcombo := mapE_append3 hshRows hfdRows hodRows
                  have hcomp := mapE_comp hcombo hdiffRows
                  rw [mapE_congr (fun r => careerRowFun_eq fighterName r)]
                  exact hcomp

/-! ### Pairing input rows with produced rows -/

theorem forall₂_zip3 {α β γ : Type} {R : α → β → Prop} {S : α → γ → Prop} :
    ∀ {xs : List α} {ys : List β} {zs : List γ},
      List.Forall₂ R xs ys → List.Forall₂ S xs zs →
      ∀ a ∈ xs.zip (ys.zip zs), R a.1 a.2.1 ∧ S a.1 a.2.2 := by
  intro xs
  induction xs with
  | nil =>
    intro ys zs h1 h2 a ha
    cases h1
    simp at ha
  | cons x xs ih =>
    intro ys zs h1 h2 a ha
    cases h1 with
    | cons hR h1rest =>
      cases h2 with
      | cons hS h2rest =>
        rw [List.zip_cons_cons, List.zip_cons_cons, List.mem_cons] at ha
        cases ha with
        | inl hhead => cases hhead; exact ⟨hR, hS⟩
        | inr htail => exact ih h1rest h2rest a htail

/-- The rows of `extract_fighter_details` / `extract_opponent_details` pair
    up one to one with the filtered rows through `detailRow`. -/
theorem extract_forall₂ {ft : Table} {fighterName : String} {fd od : Table}
    (hfd : extract_fighter_details ft fighterName = .ok fd)
    (hod : extract_opponent_details ft fighterName = .ok od) :
    (ft.rows = [] ∧ fd.rows = [] ∧ od.rows = []) ∨
      (List.Forall₂ (fun r s => detailRow fighterPairs fighterName r = .ok s)
        ft.rows fd.rows ∧
       List.Forall₂ (fun r s => detailRow opponentPairs fighterName r = .ok s)
        ft.rows od.rows) := by
  unfold extract_fighter_details applyExpand at hfd
  unfold extract_opponent_details applyExpand at hod
  cases hrows : ft.rows with
  | nil =>
    rw [hrows] at hfd hod
    cases hfd
    cases hod
    exact Or.inl ⟨rfl, rfl, rfl⟩
  | cons r0 rest =>
    rw [hrows] at hfd hod
    rw [bind_ok] at hfd hod
    obtain ⟨fdRows, hfdRows, hfd⟩ := hfd
    obtain ⟨odRows, hodRows, hod⟩ := hod
    cases hfd
    cases hod
    exact Or.inr ⟨mapE_ok_iff.mp hfdRows, mapE_ok_iff.mp hodRows⟩

/-- C1 (reorientation only relabels): for every row surviving the fighter
    filter and every handled paired field, the subject field of the produced
    fighter-details row reads exactly that field's column on the fighter's
    own side of the bout row, and the corresponding `opponent`-prefixed
    field of the opponent-details row reads the same field's column on the
    other side. -/
theorem reorient_relabels {df : Table} {fighterName : String} {ft fd od : Table}
    (hft : filter_fighter_fights df fighterName = .ok ft)
    (hfd : extract_fighter_details ft fighterName = .ok fd)
    (hod : extract_opponent_details ft fighterName = .ok od) :
    ∀ a ∈ ft.rows.zip (fd.rows.zip od.rows),
      ∀ pq ∈ fighterPairs.zip opponentPairs,
        rowGet a.2.1 pq.1.1 =
          rowGet a.1 (if isF1 a.1 fighterName then pq.1.2.1 else pq.1.2.2) ∧
        rowGet a.2.2 pq.2.1 =
          rowGet a.1 (if isF1 a.1 fighterName then pq.1.2.2 else pq.1.2.1) := by
  intro a ha pq hpq
  rcases extract_forall₂ hfd hod with ⟨hnil, -, -⟩ | ⟨h1, h2⟩
  · rw [hnil] at ha
    simp at ha
  · obtain ⟨hfdRow, hodRow⟩ := forall₂_zip3 h1 h2 a ha
    obtain ⟨hp, hq⟩ := List.of_mem_zip hpq
    obtain ⟨hm1, hm2⟩ := pairs_mirror pq hpq
    constructor
    · exact detailRow_rowGet hfdRow fighterPairs_keys_nodup hp
    · rw [detailRow_rowGet hodRow opponentPairs_keys_nodup hq, hm1, hm2]

def ftOut : Table := (filter_fighter_fights sampleTable "A").toOption.getD ⟨[], []⟩

def fdOut : Table := (extract_fighter_details ftOut "A").toOption.getD ⟨[], []⟩

def odOut : Table := (extract_opponent_details ftOut "A").toOption.getD ⟨[], []⟩

set_option maxRecDepth 8000 in
/-- Witness for `reorient_relabels` on the concrete two-bout sample table,
    read off at the `age` field of the first career row. -/
theorem reorient_relabels_witness :
    rowGet (fdOut.rows.headD []) "age" =
      rowGet (ftOut.rows.headD [])
        (if isF1 (ftOut.rows.headD []) "A" then "fight_day_age (yrs)_fighter_1"
         else "fight_day_age (yrs)_fighter_2") ∧
    rowGet (odOut.rows.headD []) "opponent_age" =
      rowGet (ftOut.rows.headD [])
        (if isF1 (ftOut.rows.headD []) "A" then "fight_day_age (yrs)_fighter_2"
         else "fight_day_age (yrs)_fighter_1") :=
  @reorient_relabels sampleTable "A" ftOut fdOut odOut rfl rfl rfl
    (ftOut.rows.headD [], (fdOut.rows.headD [], odOut.rows.headD []))
    (by decide)
    (("age", "fight_day_age (yrs)_fighter_1", "fight_day_age (yrs)_fighter_2"),
     ("opponent_age", "fight_day_age (yrs)_fighter_2", "fight_day_age (yrs)_fighter_1"))
    (by decide)

/-! ### Per-row facts about the career transformation -/

theorem vsub_null {a b d : Value} (h : vsub a b = .ok d)
    (hn : a = .null ∨ b = .null) : d = .null := by
  rcases hn with rfl | rfl
  · cases b with
    | str s => cases h
    | num q => injection h with h; exact h.symm
    | null => injection h with h; exact h.symm
  · cases a with
    | str s => cases h
    | num q => injection h with h; exact h.symm
    | null => injection h with h; exact h.symm

theorem vsub_num {q1 q2 : ℤ} {d : Value} (h : vsub (.num q1) (.num q2) = .ok d) :
    d = .num (q1 - q2) := by
  injection h with h
  exact h.symm

theorem diffRow_parts {r out : Row} (h : diffRow r = .ok out) :
    ∃ hv ohv hd rv orv rd av oav ad,
      rowGet r "height (m)" = some hv ∧ rowGet r "opponent_height (m)" = some ohv ∧
      vsub hv ohv = .ok hd ∧
      rowGet r "reach (in)" = some rv ∧ rowGet r "opponent_reach (in)" = some orv ∧
      vsub rv orv = .ok rd ∧
      rowGet r "age" = some av ∧ rowGet r "opponent_age" = some oav ∧
      vsub av oav = .ok ad ∧
      out = rowSet (rowSet (rowSet r "height_diff" hd) "reach_diff" rd) "age_diff" ad := by
  unfold diffRow at h
  rw [bind_ok] at h
  obtain ⟨hv, hhv, h⟩ := h
  rw [bind_ok] at h
  obtain ⟨ohv, hohv, h⟩ := h
  rw [bind_ok] at h
  obtain ⟨hd, hhd, h⟩ := h
  rw [bind_ok] at h
  obtain ⟨rv, hrv, h⟩ := h
  rw [bind_ok] at h
  obtain ⟨orv, horv, h⟩ := h
  rw [bind_ok] at h
  obtain ⟨rd, hrd, h⟩ := h
  rw [bind_ok] at h
  obtain ⟨av, hav, h⟩ := h
  rw [bind_ok] at h
  obtain ⟨oav, hoav, h⟩ := h
  rw [bind_ok] at h
  obtain ⟨ad, had, h⟩ := h
  cases h
  exact ⟨hv, ohv, hd, rv, orv, rd, av, oav, ad,
    getV_ok_iff.mp hhv, getV_ok_iff.mp hohv, hhd,
    getV_ok_iff.mp hrv, getV_ok_iff.mp horv, hrd,
    getV_ok_iff.mp hav, getV_ok_iff.mp hoav, had, rfl⟩

theorem careerRowFun_parts {fighterName : String} {r out : Row}
    (h : careerRowFun fighterName r = .ok out) :
    ∃ sh fd od, selectRow sharedCols r = .ok sh ∧
      detailRow fighterPairs fighterName r = .ok fd ∧
      detailRow opponentPairs fighterName r = .ok od ∧
      diffRow (sh ++ fd ++ od) = .ok out := by
  unfold careerRowFun at h
  rw [bind_ok] at h
  obtain ⟨sh, hsh, h⟩ := h
  rw [bind_ok] at h
  obtain ⟨fd, hfd, h⟩ := h
  rw [bind_ok] at h
  obtain ⟨od, hod, h⟩ := h
  exact ⟨sh, fd, od, hsh, hfd, hod, h⟩

theorem forall₂_mem_right {α β : Type} {R : α → β → Prop} :
    ∀ {xs : List α} {ys : List β}, List.Forall₂ R xs ys →
      ∀ {b : β}, b ∈ ys → ∃ a, a ∈ xs ∧ R a b := by
  intro xs ys h
  induction h with
  | nil => intro b hb; cases hb
  | cons hR hrest ih =>
    intro b hb
    cases hb with
    | head => exact ⟨_, List.mem_cons_self _ _, hR⟩
    | tail _ hmem =>
      obtain ⟨a, ha, haR⟩ := ih hmem
      exact ⟨a, List.mem_cons_of_mem _ ha, haR⟩

theorem filter_fighter_fights_rows {df : Table} {fighterName : String} {ft : Table}
    (h : filter_fighter_fights df fighterName = .ok ft) :
    ft.rows = df.rows.filter (fun r =>
      rowGet r "fighter_1" = some (.str fighterName) ∨
      rowGet r "fighter_2" = some (.str fighterName)) := by
  unfold filter_fighter_fights at h
  split at h
  · cases h
  · split at h
    · cases h
    · cases h
      rfl

/-- Every row of a successfully built career table originates from an input
    row that names the fighter on one side, via the per-row career
    transformation. -/
theorem career_row_origin {df : Table} {fighterName : String} {out : Table}
    (h : create_fighter_career_dataset df fighterName = .ok out)
    {row : Row} (hrow : row ∈ out.rows) :
    ∃ r, r ∈ df.rows ∧
      (rowGet r "fighter_1" = some (.str fighterName) ∨
       rowGet r "fighter_2" = some (.str fighterName)) ∧
      careerRowFun fighterName r = .ok row := by
  obtain ⟨ft, hft, hcases⟩ := career_spec h
  rcases hcases with ⟨hnil, hout⟩ | ⟨rs, hrs, hout⟩
  · rw [hout] at hrow
    cases hrow
  · rw [hout] at hrow
    have hrow' := (sortRows_perm rs).mem_iff.mp hrow
    obtain ⟨r, hrmem, hrfun⟩ := forall₂_mem_right (mapE_ok_iff.mp hrs) hrow'
    rw [filter_fighter_fights_rows hft] at hrmem
    rw [List.mem_filter] at hrmem
    exact ⟨r, hrmem.1, of_decide_eq_true hrmem.2, hrfun⟩

theorem rowGet_diffSets (m : Row) (hd rd ad : Value) {c : String}
    (h1 : c ≠ "height_diff") (h2 : c ≠ "reach_diff") (h3 : c ≠ "age_diff") :
    rowGet (rowSet (rowSet (rowSet m "height_diff" hd) "reach_diff" rd) "age_diff" ad) c
      = rowGet m c := by
  rw [rowGet_rowSet_ne _ _ (Ne.symm h3), rowGet_rowSet_ne _ _ (Ne.symm h2),
    rowGet_rowSet_ne _ _ (Ne.symm h1)]

theorem rowGet_diffSets_hd (m : Row) (hd rd ad : Value) :
    rowGet (rowSet (rowSet (rowSet m "height_diff" hd) "reach_diff" rd) "age_diff" ad)
      "height_diff" = some hd := by
  have n1 : ("age_diff" : String) ≠ "height_diff" := by decide
  have n2 : ("reach_diff" : String) ≠ "height_diff" := by decide
  rw [rowGet_rowSet_ne _ _ n1, rowGet_rowSet_ne _ _ n2, rowGet_rowSet_self]

theorem rowGet_diffSets_rd (m : Row) (hd rd ad : Value) :
    rowGet (rowSet (rowSet (rowSet m "height_diff" hd) "reach_diff" rd) "age_diff" ad)
      "reach_diff" = some rd := by
  have n1 : ("age_diff" : String) ≠ "reach_diff" := by decide
  rw [rowGet_rowSet_ne _ _ n1, rowGet_rowSet_self]

theorem rowGet_diffSets_ad (m : Row) (hd rd ad : Value) :
    rowGet (rowSet (rowSet (rowSet m "height_diff" hd) "reach_diff" rd) "age_diff" ad)
      "age_diff" = some ad := rowGet_rowSet_self _ _ _

/-- Master per-row fact: each career row carries the two operand fields and
    the corresponding differential field for height, reach and age, with the
    differential the `vsub` of the operands of the same row. -/
theorem careerRow_diff_facts {df : Table} {fighterName : String} {out : Table}
    (h : create_fighter_career_dataset df fighterName = .ok out)
    {row : Row} (hrow : row ∈ out.rows) :
    ∃ hv ohv hd rv orv rd av oav ad,
      rowGet row "height (m)" = some hv ∧ rowGet row "opponent_height (m)" = some ohv ∧
      vsub hv ohv = .ok hd ∧ rowGet row "height_diff" = some hd ∧
      rowGet row "reach (in)" = some rv ∧ rowGet row "opponent_reach (in)" = some orv ∧
      vsub rv orv = .ok rd ∧ rowGet row "reach_diff" = some rd ∧
      rowGet row "age" = some av ∧ rowGet row "opponent_age" = some oav ∧
      vsub av oav = .ok ad ∧ rowGet row "age_diff" = some ad := by
  obtain ⟨r, hrmem, hside, hfun⟩ := career_row_origin h hrow
  obtain ⟨sh, fd, od, hsh, hfd, hod, hdiff⟩ := careerRowFun_parts hfun
  obtain ⟨hv, ohv, hd, rv, orv, rd, av, oav, ad, hhv, hohv, hhd, hrv, horv, hrd,
    hav, hoav, had, heq⟩ := diffRow_parts hdiff
  subst heq
  refine ⟨hv, ohv, hd, rv, orv, rd, av, oav, ad, ?_, ?_, hhd, ?_, ?_, ?_, hrd, ?_,
    ?_, ?_, had, ?_⟩
  · rw [rowGet_diffSets _ _ _ _ (by decide) (by decide) (by decide)]
    exact hhv
  · rw [rowGet_diffSets _ _ _ _ (by decide) (by decide) (by decide)]
    exact hohv
  · exact rowGet_diffSets_hd _ _ _ _
  · rw [rowGet_diffSets _ _ _ _ (by decide) (by decide) (by decide)]
    exact hrv
  · rw [rowGet_diffSets _ _ _ _ (by decide) (by decide) (by decide)]
    exact horv
  · exact rowGet_diffSets_rd _ _ _ _
  · rw [rowGet_diffSets _ _ _ _ (by decide) (by decide) (by decide)]
    exact hav
  · rw [rowGet_diffSets _ _ _ _ (by decide) (by decide) (by decide)]
    exact hoav
  · exact rowGet_diffSets_ad _ _ _ _

theorem isF1_iff {r : Row} {fighterName : String} :
    isF1 r fighterName = true ↔ rowGet r "fighter_1" = some (.str fighterName) := by
  unfold isF1
  exact decide_eq_true_iff

/-- C6: in every row of the built career dataset, `height_diff`,
    `reach_diff` and `age_diff` are exactly the numeric differences of the
    row's subject and opponent operand fields, and a missing operand makes
    the difference missing. -/
theorem career_diff_columns {df : Table} {fighterName : String} {out : Table}
    (h : create_fighter_career_dataset df fighterName = .ok out) :
    ∀ row ∈ out.rows,
      ((∀ q1 q2 : ℤ, rowGet row "height (m)" = some (.num q1) →
          rowGet row "opponent_height (m)" = some (.num q2) →
          rowGet row "height_diff" = some (.num (q1 - q2))) ∧
        ((rowGet row "height (m)" = some .null ∨
          rowGet row "opponent_height (m)" = some .null) →
          rowGet row "height_diff" = some .null)) ∧
      ((∀ q1 q2 : ℤ, rowGet row "reach (in)" = some (.num q1) →
          rowGet row "opponent_reach (in)" = some (.num q2) →
          rowGet row "reach_diff" = some (.num (q1 - q2))) ∧
        ((rowGet row "reach (in)" = some .null ∨
          rowGet row "opponent_reach (in)" = some .null) →
          rowGet row "reach_diff" = some .null)) ∧
      ((∀ q1 q2 : ℤ, rowGet row "age" = some (.num q1) →
          rowGet row "opponent_age" = some (.num q2) →
          rowGet row "age_diff" = some (.num (q1 - q2))) ∧
        ((rowGet row "age" = some .null ∨ rowGet row "opponent_age" = some .null) →
          rowGet row "age_diff" = some .null)) := by
  intro row hrow
  obtain ⟨hv, ohv, hd, rv, orv, rd, av, oav, ad, f1, f2, f3, f4, f5, f6, f7, f8,
    f9, f10, f11, f12⟩ := careerRow_diff_facts h hrow
  refine ⟨⟨?_, ?_⟩, ⟨?_, ?_⟩, ⟨?_, ?_⟩⟩
  · intro q1 q2 hq1 hq2
    rw [f1] at hq1
    injection hq1 with hq1
    rw [f2] at hq2
    injection hq2 with hq2
    subst hq1
    subst hq2
    rw [f4, vsub_num f3]
  · intro hn
    rw [f4]
    have hor : hv = .null ∨ ohv = .null := by
      rcases hn with hn | hn
      · rw [f1] at hn
        injection hn with hn
        exact Or.inl hn
      · rw [f2] at hn
        injection hn with hn
        exact Or.inr hn
    rw [vsub_null f3 hor]
  · intro q1 q2 hq1 hq2
    rw [f5] at hq1
    injection hq1 with hq1
    rw [f6] at hq2
    injection hq2 with hq2
    subst hq1
    subst hq2
    rw [f8, vsub_num f7]
  · intro hn
    rw [f8]
    have hor : rv = .null ∨ orv = .null := by
      rcases hn with hn | hn
      · rw [f5] at hn
        injection hn with hn
        exact Or.inl hn
      · rw [f6] at hn
        injection hn with hn
        exact Or.inr hn
    rw [vsub_null f7 hor]
  · intro q1 q2 hq1 hq2
    rw [f9] at hq1
    injection hq1 with hq1
    rw [f10] at hq2
    injection hq2 with hq2
    subst hq1
    subst hq2
    rw [f12, vsub_num f11]
  · intro hn
    rw [f12]
    have hor : av = .null ∨ oav = .null := by
      rcases hn with hn | hn
      · rw [f9] at hn
        injection hn with hn
        exact Or.inl hn
      · rw [f10] at hn
        injection hn with hn
        exact Or.inr hn
    rw [vsub_null f11 hor]

def careerOut : Table := (create_fighter_career_dataset sampleTable "A").toOption.getD ⟨[], []⟩

set_option maxRecDepth 8000 in
/-- Witness for `career_diff_columns` on the sample table: the first career
    row of fighter A has `age_diff = 2 - 1`. -/
theorem career_diff_columns_witness :
    rowGet (careerOut.rows.headD []) "age_diff" = some (.num (2 - 1)) :=
  ((@career_diff_columns sampleTable "A" careerOut rfl
    (careerOut.rows.headD []) (by decide)).2.2.1) 2 1 (by decide) (by decide)

/-- C9: the rows of a successfully built career dataset are ordered by
    event date non-increasing (`dateGE` holds between every row and each
    later row; missing or non-numeric dates sort last). -/
theorem career_rows_sorted {df : Table} {fighterName : String} {out : Table}
    (h : create_fighter_career_dataset df fighterName = .ok out) :
    List.Sorted dateGE out.rows := by
  obtain ⟨ft, hft, hcases⟩ := career_spec h
  rcases hcases with ⟨hnil, hout⟩ | ⟨rs, hrs, hout⟩
  · rw [hout]
    exact List.sorted_nil
  · rw [hout]
    exact sortRows_sorted rs

set_option maxRecDepth 8000 in
/-- Witness for `career_rows_sorted` on the sample table. -/
theorem career_rows_sorted_witness : List.Sorted dateGE careerOut.rows :=
  @career_rows_sorted sampleTable "A" careerOut rfl

/-- C7 (amended): provided no input row lists the same value on both
    fighter-name sides, every career row of `create_fighter_career_dataset`
    has its `fighter` field equal to the queried name and its `opponent`
    field different from the queried name. -/
theorem career_fighter_opponent {df : Table} {fighterName : String} {out : Table}
    (h : create_fighter_career_dataset df fighterName = .ok out)
    (hdistinct : ∀ r ∈ df.rows, rowGet r "fighter_1" ≠ rowGet r "fighter_2") :
    ∀ row ∈ out.rows,
      rowGet row "fighter" = some (.str fighterName) ∧
      rowGet row "opponent" ≠ some (.str fighterName) := by
  intro row hrow
  obtain ⟨r, hrmem, hside, hfun⟩ := career_row_origin h hrow
  obtain ⟨sh, fd, od, hsh, hfd, hod, hdiff⟩ := careerRowFun_parts hfun
  obtain ⟨hv, ohv, hd, rv, orv, rd, av, oav, ad, -, -, -, -, -, -, -, -, -,
    heq⟩ := diffRow_parts hdiff
  subst heq
  have hfd2 := detailRow_forall₂ hfd
  have hod2 := detailRow_forall₂ hod
  -- the subject field
  obtain ⟨v, hvfd, hvr⟩ := rowGet_of_forall₂ (fun p => p.1)
    (fun (p : String × String × String) v =>
      rowGet r (if isF1 r fighterName then p.2.1 else p.2.2) = some v)
    hfd2 fighterPairs_keys_nodup
    (show ("fighter", "fighter_1", "fighter_2") ∈ fighterPairs by decide)
  obtain ⟨w, hwod, hwr⟩ := rowGet_of_forall₂ (fun p => p.1)
    (fun (p : String × String × String) v =>
      rowGet r (if isF1 r fighterName then p.2.1 else p.2.2) = some v)
    hod2 opponentPairs_keys_nodup
    (show ("opponent", "fighter_2", "fighter_1") ∈ opponentPairs by decide)
  replace hvr : rowGet r (if isF1 r fighterName then "fighter_1" else "fighter_2")
      = some v := hvr
  replace hwr : rowGet r (if isF1 r fighterName then "fighter_2" else "fighter_1")
      = some w := hwr
  replace hvfd : rowGet fd "fighter" = some v := hvfd
  replace hwod : rowGet od "opponent" = some w := hwod
  have hshF : rowGet sh "fighter" = none := selectRow_rowGet_none hsh (by decide)
  have hshO : rowGet sh "opponent" = none := selectRow_rowGet_none hsh (by decide)
  have hfdO : rowGet fd "opponent" = none := detailRow_rowGet_none hfd (by decide)
  have hrowF : rowGet
      (rowSet (rowSet (rowSet (sh ++ fd ++ od) "height_diff" hd) "reach_diff" rd)
        "age_diff" ad) "fighter" = some v := by
    rw [rowGet_diffSets _ _ _ _ (by decide) (by decide) (by decide),
      List.append_assoc, rowGet_append_right _ hshF, rowGet_append_left _ hvfd]
  have hrowO : rowGet
      (rowSet (rowSet (rowSet (sh ++ fd ++ od) "height_diff" hd) "reach_diff" rd)
        "age_diff" ad) "opponent" = some w := by
    rw [rowGet_diffSets _ _ _ _ (by decide) (by decide) (by decide),
      List.append_assoc, rowGet_append_right _ hshO,
      rowGet_append_right _ hfdO, hwod]
  constructor
  · rw [hrowF]
    by_cases hF : isF1 r fighterName = true
    · rw [if_pos hF] at hvr
      rw [isF1_iff.mp hF] at hvr
      injection hvr with hvr
      rw [hvr]
    · rw [if_neg hF] at hvr
      have hf2 : rowGet r "fighter_2" = some (.str fighterName) := by
        rcases hside with hs | hs
        · exact absurd (isF1_iff.mpr hs) hF
        · exact hs
      rw [hf2] at hvr
      injection hvr with hvr
      rw [hvr]
  · rw [hrowO]
    intro hcontra
    injection hcontra with hcontra
    subst hcontra
    by_cases hF : isF1 r fighterName = true
    · rw [if_pos hF] at hwr
      exact hdistinct r hrmem ((isF1_iff.mp hF).trans hwr.symm)
    · rw [if_neg hF] at hwr
      exact absurd (isF1_iff.mpr hwr) hF

def selfTable : Table := ⟨sampleCols, [sampleBout "A" "A" 3]⟩

set_option maxRecDepth 8000 in
/-- Counterexample to C7 as stated: on a bout row listing the same fighter
    on both sides, the career dataset for that fighter has
    `opponent = fighter = "A"`, so `opponent ≠ fighter` fails. -/
theorem career_fighter_opponent_cex :
    (create_fighter_career_dataset selfTable "A").toOption.map
      (fun tb => tb.rows.map (fun row => (rowGet row "fighter", rowGet row "opponent")))
      = some [(some (.str "A"), some (.str "A"))] := by decide

def careerDistinct : ∀ r ∈ sampleTable.rows,
    rowGet r "fighter_1" ≠ rowGet r "fighter_2" := by decide

set_option maxRecDepth 8000 in
/-- Witness for `career_fighter_opponent` on the sample table. -/
theorem career_fighter_opponent_witness :
    rowGet (careerOut.rows.headD []) "fighter" = some (.str "A") ∧
    rowGet (careerOut.rows.headD []) "opponent" ≠ some (.str "A") :=
  @career_fighter_opponent sampleTable "A" careerOut rfl careerDistinct
    (careerOut.rows.headD []) (by decide)

/-- C5 (code bug): querying the career pipeline for a fighter with zero
    matching rows does not return an empty table. pandas
    `apply(..., result_type='expand')` on the empty filtered frame returns a
    copy with the original bout columns, so `create_diff_columns` then hits
    a missing `height (m)` column and the whole call raises
    `KeyError: height (m)` instead of producing an empty CareerRows with
    `fight_count == 0`, sum `0` and `NaN` mean/median. -/
theorem zero_fights_keyerror :
    create_fighter_career_dataset sampleTable "Nobody" = .error "KeyError: height (m)" ∧
    fighter_stats sampleTable "Nobody" = .error "KeyError: height (m)" :=
  ⟨rfl, rfl⟩

def nullSigTable : Table :=
  ⟨sampleCols, [("sig_strikes_landed_fighter_2", Value.null) :: sampleBout "A" "B" 3,
    sampleBout "A" "C" 7]⟩

set_option maxRecDepth 8000 in
/-- Counterexample to C8 as stated: with one of fighter A's two bouts
    missing `opponent_sig_strikes_landed`, the aggregates do not become
    missing: the sum is `2` (the missing value contributes like `0`) and the
    mean and median are `2`, not `NaN`. -/
theorem missing_propagation_cex :
    (fighter_stats nullSigTable "A").toOption.map
      (fun t => (t.2.1, t.2.2.2.1, t.2.2.2.2)) =
      some (Value.num 2, some (mkRat 2 1), some (mkRat 2 1)) := by decide

/-- C8 (amended): missing numeric values propagate as missing through the
    differential columns (a missing operand gives a missing difference), but
    the aggregates of `fighter_stats` skip missing values instead of
    propagating them: the sum is the sum of the present values (0 when none
    are present), and the mean and median are missing exactly when no value
    is present. -/
theorem missing_propagation {df : Table} {fighterName : String}
    {res : Table × Value × Nat × Option ℚ × Option ℚ}
    (h : fighter_stats df fighterName = .ok res) :
    (∀ row ∈ res.1.rows,
      ((rowGet row "age" = some .null ∨ rowGet row "opponent_age" = some .null) →
        rowGet row "age_diff" = some .null) ∧
      ((rowGet row "height (m)" = some .null ∨
        rowGet row "opponent_height (m)" = some .null) →
        rowGet row "height_diff" = some .null)) ∧
    ∃ col, getColVals res.1 "opponent_sig_strikes_landed" = .ok col ∧
      res.2.1 = .num (presentNums col).sum ∧
      (res.2.2.2.1 = none ↔ presentNums col = []) ∧
      (res.2.2.2.2 = none ↔ presentNums col = []) := by
  unfold fighter_stats at h
  rw [bind_ok] at h
  obtain ⟨fs, hfs, h⟩ := h
  rw [bind_ok] at h
  obtain ⟨col, hcol, h⟩ := h
  rw [bind_ok] at h
  obtain ⟨s, hs, h⟩ := h
  rw [bind_ok] at h
  obtain ⟨m, hm, h⟩ := h
  rw [bind_ok] at h
  obtain ⟨md, hmd, h⟩ := h
  cases h
  constructor
  · intro row hrow
    obtain ⟨hv, ohv, hd, rv, orv, rd, av, oav, ad, f1, f2, f3, f4, f5, f6, f7,
      f8, f9, f10, f11, f12⟩ := careerRow_diff_facts hfs hrow
    constructor
    · intro hn
      rw [f12]
      have hor : av = .null ∨ oav = .null := by
        rcases hn with hn | hn
        · rw [f9] at hn
          injection hn with hn
          exact Or.inl hn
        · rw [f10] at hn
          injection hn with hn
          exact Or.inr hn
      rw [vsub_null f11 hor]
    · intro hn
      rw [f4]
      have hor : hv = .null ∨ ohv = .null := by
        rcases hn with hn | hn
        · rw [f1] at hn
          injection hn with hn
          exact Or.inl hn
        · rw [f2] at hn
          injection hn with hn
          exact Or.inr hn
      rw [vsub_null f3 hor]
  · refine ⟨col, hcol, ?_, ?_, ?_⟩
    · unfold colSum at hs
      split at hs
      · cases hs
      · injection hs with hs
        exact hs.symm
    · unfold colMean at hm
      split at hm
      · cases hm
      · split at hm
        · injection hm with hm
          rw [← hm]
          exact ⟨fun _ => List.length_eq_zero.mp (by assumption), fun _ => rfl⟩
        · injection hm with hm
          rw [← hm]
          refine ⟨fun hc => absurd hc (Option.some_ne_none _), fun hnil => ?_⟩
          exact absurd (show (presentNums col).length = 0 by rw [hnil]; rfl)
            (by assumption)
    · have hlen : ((presentNums col).insertionSort (· ≤ ·)).length =
        (presentNums col).length := (List.perm_insertionSort _ _).length_eq
      simp only [colMedian] at hmd
      split at hmd
      · cases hmd
      · split at hmd
        · injection hmd with hmd
          rw [← hmd]
          refine ⟨fun _ => ?_, fun _ => rfl⟩
          rw [← List.length_eq_zero, ← hlen]
          assumption
        · split at hmd
          · injection hmd with hmd
            rw [← hmd]
            refine ⟨fun hc => absurd hc (Option.some_ne_none _), fun hnil => ?_⟩
            exact absurd (show ((presentNums col).insertionSort (· ≤ ·)).length = 0
              by rw [hlen, hnil]; rfl) (by assumption)
          · injection hmd with hmd
            rw [← hmd]
            refine ⟨fun hc => absurd hc (Option.some_ne_none _), fun hnil => ?_⟩
            exact absurd (show ((presentNums col).insertionSort (· ≤ ·)).length = 0
              by rw [hlen, hnil]; rfl) (by assumption)

def nullAgeTable : Table :=
  ⟨sampleCols, [("fight_day_age (yrs)_fighter_2", Value.null) :: sampleBout "A" "B" 3]⟩

def statsNullOut : Table × Value × Nat × Option ℚ × Option ℚ :=
  (fighter_stats nullAgeTable "A").toOption.getD (⟨[], []⟩, .null, 0, none, none)

set_option maxRecDepth 8000 in
/-- Witness for `missing_propagation`: with the opponent age missing,
    `age_diff` of the produced career row is missing. -/
theorem missing_propagation_witness :
    rowGet (statsNullOut.1.rows.headD []) "age_diff" = some Value.null :=
  (((@missing_propagation nullAgeTable "A" statsNullOut rfl).1
    (statsNullOut.1.rows.headD []) (by decide)).1) (Or.inr (by decide))

/-! ### The title-bout classifier -/

theorem pure_ok {α : Type} {x y : α} : (pure x : Except String α) = .ok y ↔ x = y := by
  constructor
  · intro h
    exact Except.ok.inj h
  · intro h
    rw [h]
    rfl

theorem filter_title_bouts_rows {df tb : Table}
    (h : filter_title_bouts df = .ok tb) :
    tb.rows = df.rows.filter (fun r => rowGet r "is_title_bout" = some (.num 2)) := by
  unfold filter_title_bouts at h
  split at h
  · cases h
  · cases h
    rfl

theorem filter_vacant_title_bouts_rows {df vb : Table}
    (h : filter_vacant_title_bouts df = .ok vb) :
    vb.rows = df.rows.filter (fun r =>
      rowGet r "is_title_bout" = some (.num 2) ∧
      ¬ rowGet r "is_champion_fighter_1" = some (.num 2) ∧
      ¬ rowGet r "is_champion_fighter_2" = some (.num 2)) := by
  unfold filter_vacant_title_bouts at h
  split at h
  · cases h
  · split at h
    · cases h
    · split at h
      · cases h
      · cases h
        rfl

/-- Success characterization of `create_title_bouts_datasets`: the
    champion/contender rows pair up with all title bouts, the vacant rows
    with exactly the vacant title bouts. -/
theorem title_spec {df cc vac : Table}
    (h : create_title_bouts_datasets df = .ok (cc, vac)) :
    List.Forall₂ (fun r o => ccRowFun r = .ok o)
      (df.rows.filter (fun r => rowGet r "is_title_bout" = some (.num 2)))
      cc.rows ∧
    List.Forall₂ (fun r o => selectRow vacantCols (renameRow r) = .ok o)
      (df.rows.filter (fun r =>
        rowGet r "is_title_bout" = some (.num 2) ∧
        ¬ rowGet r "is_champion_fighter_1" = some (.num 2) ∧
        ¬ rowGet r "is_champion_fighter_2" = some (.num 2)))
      vac.rows := by
  unfold create_title_bouts_datasets at h
  rw [bind_ok] at h
  obtain ⟨tb, htb, h⟩ := h
  rw [bind_ok] at h
  obtain ⟨ccRows, hccRows, h⟩ := h
  rw [bind_ok] at h
  obtain ⟨vb, hvb, h⟩ := h
  rw [bind_ok] at h
  obtain ⟨vacRows, hvacRows, h⟩ := h
  injection h with h
  injection h with h1 h2
  subst h1
  subst h2
  rw [filter_title_bouts_rows htb] at hccRows
  rw [filter_vacant_title_bouts_rows hvb] at hvacRows
  exact ⟨mapE_ok_iff.mp hccRows, mapE_ok_iff.mp hvacRows⟩

theorem determine_champion_flag1 {r : Row} {champRaw : Option Value}
    (h : determine_champion r = .ok champRaw)
    (hf1 : rowGet r "is_champion_fighter_1" = some (.num 2)) :
    champRaw = rowGet r "fighter_1" := by
  unfold determine_champion at h
  rw [bind_ok] at h
  obtain ⟨f1v, hf1v, h⟩ := h
  rw [getV_ok_iff, hf1] at hf1v
  injection hf1v with hf1v
  subst hf1v
  rw [if_pos rfl] at h
  rw [bind_ok] at h
  obtain ⟨c, hc, h⟩ := h
  rw [pure_ok] at h
  rw [← h, getV_ok_iff.mp hc]

theorem determine_champion_flag2 {r : Row} {champRaw : Option Value}
    (h : determine_champion r = .ok champRaw)
    (hnot1 : ¬ rowGet r "is_champion_fighter_1" = some (.num 2))
    (hf2 : rowGet r "is_champion_fighter_2" = some (.num 2)) :
    champRaw = rowGet r "fighter_2" := by
  unfold determine_champion at h
  rw [bind_ok] at h
  obtain ⟨f1v, hf1v, h⟩ := h
  rw [getV_ok_iff] at hf1v
  rw [if_neg (fun hh => hnot1 (by rw [hf1v, hh]))] at h
  rw [bind_ok] at h
  obtain ⟨f2v, hf2v, h⟩ := h
  rw [getV_ok_iff, hf2] at hf2v
  injection hf2v with hf2v
  subst hf2v
  rw [if_pos rfl] at h
  rw [bind_ok] at h
  obtain ⟨c, hc, h⟩ := h
  rw [pure_ok] at h
  rw [← h, getV_ok_iff.mp hc]

theorem determine_champion_vacant {r : Row} {champRaw : Option Value}
    (h : determine_champion r = .ok champRaw)
    (hnot1 : ¬ rowGet r "is_champion_fighter_1" = some (.num 2))
    (hnot2 : ¬ rowGet r "is_champion_fighter_2" = some (.num 2)) :
    champRaw = none := by
  unfold determine_champion at h
  rw [bind_ok] at h
  obtain ⟨f1v, hf1v, h⟩ := h
  rw [getV_ok_iff] at hf1v
  rw [if_neg (fun hh => hnot1 (by rw [hf1v, hh]))] at h
  rw [bind_ok] at h
  obtain ⟨f2v, hf2v, h⟩ := h
  rw [getV_ok_iff] at hf2v
  rw [if_neg (fun hh => hnot2 (by rw [hf2v, hh]))] at h
  rw [pure_ok] at h
  exact h.symm

theorem determine_contender_flag1 {r : Row} {contRaw : Option Value}
    (h : determine_contender r = .ok contRaw)
    (hf1 : rowGet r "is_champion_fighter_1" = some (.num 2)) :
    contRaw = rowGet r "fighter_2" := by
  unfold determine_contender at h
  rw [bind_ok] at h
  obtain ⟨f1v, hf1v, h⟩ := h
  rw [getV_ok_iff, hf1] at hf1v
  injection hf1v with hf1v
  subst hf1v
  rw [if_pos rfl] at h
  rw [bind_ok] at h
  obtain ⟨c, hc, h⟩ := h
  rw [pure_ok] at h
  rw [← h, getV_ok_iff.mp hc]

theorem determine_contender_flag2 {r : Row} {contRaw : Option Value}
    (h : determine_contender r = .ok contRaw)
    (hnot1 : ¬ rowGet r "is_champion_fighter_1" = some (.num 2))
    (hf2 : rowGet r "is_champion_fighter_2" = some (.num 2)) :
    contRaw = rowGet r "fighter_1" := by
  unfold determine_contender at h
  rw [bind_ok] at h
  obtain ⟨f1v, hf1v, h⟩ := h
  rw [getV_ok_iff] at hf1v
  rw [if_neg (fun hh => hnot1 (by rw [hf1v, hh]))] at h
  rw [bind_ok] at h
  obtain ⟨f2v, hf2v, h⟩ := h
  rw [getV_ok_iff, hf2] at hf2v
  injection hf2v with hf2v
  subst hf2v
  rw [if_pos rfl] at h
  rw [bind_ok] at h
  obtain ⟨c, hc, h⟩ := h
  rw [pure_ok] at h
  rw [← h, getV_ok_iff.mp hc]

theorem determine_contender_vacant {r : Row} {contRaw : Option Value}
    (h : determine_contender r = .ok contRaw)
    (hnot1 : ¬ rowGet r "is_champion_fighter_1" = some (.num 2))
    (hnot2 : ¬ rowGet r "is_champion_fighter_2" = some (.num 2)) :
    contRaw = none := by
  unfold determine_contender at h
  rw [bind_ok] at h
  obtain ⟨f1v, hf1v, h⟩ := h
  rw [getV_ok_iff] at hf1v
  rw [if_neg (fun hh => hnot1 (by rw [hf1v, hh]))] at h
  rw [bind_ok] at h
  obtain ⟨f2v, hf2v, h⟩ := h
  rw [getV_ok_iff] at hf2v
  rw [if_neg (fun hh => hnot2 (by rw [hf2v, hh]))] at h
  rw [pure_ok] at h
  exact h.symm

theorem ccOut_champion (en ed ch ct ca cta cst ctst cr ctr : Value) :
    rowGet [("event_name", en), ("event_date", ed), ("champion", ch), ("contender", ct),
      ("champion_age", ca), ("contender_age", cta), ("champion_W/L_streak", cst),
      ("contender_W/L_streak", ctst), ("champion_result", cr), ("contender_result", ctr)]
      "champion" = some ch := rfl

theorem ccOut_contender (en ed ch ct ca cta cst ctst cr ctr : Value) :
    rowGet [("event_name", en), ("event_date", ed), ("champion", ch), ("contender", ct),
      ("champion_age", ca), ("contender_age", cta), ("champion_W/L_streak", cst),
      ("contender_W/L_streak", ctst), ("champion_result", cr), ("contender_result", ctr)]
      "contender" = some ct := rfl

theorem ccOut_champion_age (en ed ch ct ca cta cst ctst cr ctr : Value) :
    rowGet [("event_name", en), ("event_date", ed), ("champion", ch), ("contender", ct),
      ("champion_age", ca), ("contender_age", cta), ("champion_W/L_streak", cst),
      ("contender_W/L_streak", ctst), ("champion_result", cr), ("contender_result", ctr)]
      "champion_age" = some ca := rfl

theorem ccOut_champion_streak (en ed ch ct ca cta cst ctst cr ctr : Value) :
    rowGet [("event_name", en), ("event_date", ed), ("champion", ch), ("contender", ct),
      ("champion_age", ca), ("contender_age", cta), ("champion_W/L_streak", cst),
      ("contender_W/L_streak", ctst), ("champion_result", cr), ("contender_result", ctr)]
      "champion_W/L_streak" = some cst := rfl

theorem ccOut_champion_result (en ed ch ct ca cta cst ctst cr ctr : Value) :
    rowGet [("event_name", en), ("event_date", ed), ("champion", ch), ("contender", ct),
      ("champion_age", ca), ("contender_age", cta), ("champion_W/L_streak", cst),
      ("contender_W/L_streak", ctst), ("champion_result", cr), ("contender_result", ctr)]
      "champion_result" = some cr := rfl

/-- Field-level behaviour of the per-row classifier: side-1 champion flag
    wins, else side-2, else the bout is vacant with the sentinel champion
    and missing champion stats (the guards are read in the source's
    `if`/`elif` cascade order). -/
theorem ccRowFun_fields {r o : Row} (h : ccRowFun r = .ok o)
    {a1 a2 : String} (h1 : rowGet r "fighter_1" = some (.str a1))
    (h2 : rowGet r "fighter_2" = some (.str a2)) :
    (rowGet r "is_champion_fighter_1" = some (.num 2) →
      rowGet o "champion" = some (.str a1) ∧ rowGet o "contender" = some (.str a2)) ∧
    (¬ rowGet r "is_champion_fighter_1" = some (.num 2) →
      rowGet r "is_champion_fighter_2" = some (.num 2) →
      rowGet o "champion" = some (.str a2) ∧ rowGet o "contender" = some (.str a1)) ∧
    (¬ rowGet r "is_champion_fighter_1" = some (.num 2) →
      ¬ rowGet r "is_champion_fighter_2" = some (.num 2) →
      rowGet o "champion" = some (.str "Vacant") ∧
      rowGet o "champion_age" = some .null ∧
      rowGet o "champion_W/L_streak" = some .null ∧
      rowGet o "champion_result" = some .null) := by
  unfold ccRowFun at h
  simp only [bind_ok, pure_ok] at h
  obtain ⟨champRaw, hchampRaw, contRaw, hcontRaw, a3, ha3, a4, ha4, a5, ha5,
    a6, ha6, a7, ha7, a8, ha8, en, hen, ed, hed, ho⟩ := h
  subst ho
  refine ⟨?_, ?_, ?_⟩
  · intro hf1
    have hcr : champRaw = some (Value.str a1) :=
      (determine_champion_flag1 hchampRaw hf1).trans h1
    have hct : contRaw = some (Value.str a2) :=
      (determine_contender_flag1 hcontRaw hf1).trans h2
    subst hcr
    subst hct
    rw [ccOut_champion, ccOut_contender]
    constructor
    · show some (if Value.str a1 = Value.null then Value.str "Vacant" else Value.str a1)
        = some (Value.str a1)
      rw [if_neg (fun hh => Value.noConfusion hh)]
    · rfl
  · intro hnot1 hf2
    have hcr : champRaw = some (Value.str a2) :=
      (determine_champion_flag2 hchampRaw hnot1 hf2).trans h2
    have hct : contRaw = some (Value.str a1) :=
      (determine_contender_flag2 hcontRaw hnot1 hf2).trans h1
    subst hcr
    subst hct
    rw [ccOut_champion, ccOut_contender]
    constructor
    · show some (if Value.str a2 = Value.null then Value.str "Vacant" else Value.str a2)
        = some (Value.str a2)
      rw [if_neg (fun hh => Value.noConfusion hh)]
    · rfl
  · intro hnot1 hnot2
    have hcr : champRaw = none := determine_champion_vacant hchampRaw hnot1 hnot2
    subst hcr
    rw [ccOut_champion, ccOut_champion_age, ccOut_champion_streak, ccOut_champion_result]
    refine ⟨rfl, ?_, ?_, ?_⟩
    · show some (if Value.str "Vacant" = Value.str "Vacant" then Value.null else a3)
        = some Value.null
      rw [if_pos rfl]
    · show some (if Value.str "Vacant" = Value.str "Vacant" then Value.null else a4)
        = some Value.null
      rw [if_pos rfl]
    · show some (if Value.str "Vacant" = Value.str "Vacant" then Value.null else a5)
        = some Value.null
      rw [if_pos rfl]

theorem renameVacant_preimage {k c : String} (h : renameVacant k = c) :
    k = c ∨ (k, c) ∈ [("fighter_1", "contender_a"), ("fighter_2", "contender_b"),
      ("fight_day_age (yrs)_fighter_1", "contender_a_age"),
      ("fight_day_age (yrs)_fighter_2", "contender_b_age"),
      ("W/L_streak_fighter_1", "contender_a_W/L_streak"),
      ("W/L_streak_fighter_2", "contender_b_W/L_streak"),
      ("fight_result_fighter_1", "contender_a_result"),
      ("fight_result_fighter_2", "contender_b_result")] := by
  unfold renameVacant at h
  split_ifs at h with h1 h2 h3 h4 h5 h6 h7 h8
  · subst h
    subst h1
    exact Or.inr (by decide)
  · subst h
    subst h2
    exact Or.inr (by decide)
  · subst h
    subst h3
    exact Or.inr (by decide)
  · subst h
    subst h4
    exact Or.inr (by decide)
  · subst h
    subst h5
    exact Or.inr (by decide)
  · subst h
    subst h6
    exact Or.inr (by decide)
  · subst h
    subst h7
    exact Or.inr (by decide)
  · subst h
    subst h8
    exact Or.inr (by decide)
  · exact Or.inl h

theorem rowGet_renameRow {c c' : String} (hmap : renameVacant c' = c) :
    ∀ {r : Row}, (∀ e ∈ r, renameVacant e.1 = c → e.1 = c') →
      rowGet (renameRow r) c = rowGet r c' := by
  intro r
  induction r with
  | nil => intro _; rfl
  | cons e t ih =>
    intro habs
    obtain ⟨k, v⟩ := e
    show rowGet ((renameVacant k, v) :: renameRow t) c = rowGet ((k, v) :: t) c'
    by_cases hk : renameVacant k = c
    · have hkc : k = c' := habs (k, v) (List.mem_cons_self _ _) hk
      subst hkc
      rw [rowGet, if_pos hk, rowGet, if_pos rfl]
    · have hkc : ¬ k = c' := fun hh => hk (by rw [hh]; exact hmap)
      rw [rowGet, if_neg hk, rowGet, if_neg hkc]
      exact ih (fun e he hee => habs e (List.mem_cons_of_mem _ he) hee)

theorem vacantRow_contenders {r vr : Row}
    (h : selectRow vacantCols (renameRow r) = .ok vr)
    (hclean : ∀ e ∈ r, ¬ e.1 = "contender_a" ∧ ¬ e.1 = "contender_b") :
    rowGet vr "contender_a" = rowGet r "fighter_1" ∧
    rowGet vr "contender_b" = rowGet r "fighter_2" := by
  have hnd : vacantCols.Nodup := by decide
  constructor
  · rw [selectRow_rowGet h hnd (by decide)]
    refine rowGet_renameRow (by decide) ?_
    intro e he hee
    rcases renameVacant_preimage hee with hh | hh
    · exact absurd hh (hclean e he).1
    · simp at hh
      exact hh
  · rw [selectRow_rowGet h hnd (by decide)]
    refine rowGet_renameRow (by decide) ?_
    intro e he hee
    rcases renameVacant_preimage hee with hh | hh
    · exact absurd hh (hclean e he).2
    · simp at hh
      exact hh

theorem forall₂_imp_mem {α β : Type} {R S : α → β → Prop} :
    ∀ {xs : List α} {ys : List β}, List.Forall₂ R xs ys →
      (∀ a b, a ∈ xs → R a b → S a b) → List.Forall₂ S xs ys := by
  intro xs ys h
  induction h with
  | nil => intro _; exact List.Forall₂.nil
  | cons hR hrest ih =>
    intro himp
    exact List.Forall₂.cons (himp _ _ (List.mem_cons_self _ _) hR)
      (ih (fun a b ha => himp a b (List.mem_cons_of_mem _ ha)))

def vacantTitleTable : Table := ⟨sampleTitleCols, [sampleTitleBout "A" "B" 0 0]⟩

set_option maxRecDepth 8000 in
/-- Counterexample to C2 as stated: a vacant title bout (neither
    `is_champion` flag equals 2) is routed into *both* outputs — it yields a
    champion/contender row (with the `"Vacant"` sentinel) and a vacant-bouts
    row — contradicting "appears only in the vacant-bouts output" and
    "no title bout appears in both outputs". -/
theorem classify_title_routing_cex :
    (create_title_bouts_datasets vacantTitleTable).toOption.map
      (fun p => (p.1.rows.map (fun o => rowGet o "champion"),
        p.2.rows.map (fun o => (rowGet o "contender_a", rowGet o "contender_b"))))
      = some ([some (.str "Vacant")], [(some (.str "A"), some (.str "B"))]) := by decide

/-- C2 (amended): the classifier puts every title bout (vacant ones
    included) into the champion/contender output, one row per bout, and
    additionally routes exactly the vacant title bouts into the vacant
    output, with `contender_a` carrying the side-1 fighter and
    `contender_b` the side-2 fighter; non-vacant title bouts yield no
    vacant-output row. (The hypothesis excludes input rows that already
    carry `contender_a`/`contender_b` keys, which the rename would
    shadow.) -/
theorem classify_title_routing {df cc vac : Table}
    (h : create_title_bouts_datasets df = .ok (cc, vac))
    (hclean : ∀ r ∈ df.rows, ∀ e ∈ r, ¬ e.1 = "contender_a" ∧ ¬ e.1 = "contender_b") :
    (df.rows.filter (fun r => rowGet r "is_title_bout" = some (.num 2))).length
      = cc.rows.length ∧
    (df.rows.filter (fun r =>
        rowGet r "is_title_bout" = some (.num 2) ∧
        ¬ rowGet r "is_champion_fighter_1" = some (.num 2) ∧
        ¬ rowGet r "is_champion_fighter_2" = some (.num 2))).length = vac.rows.length ∧
    List.Forall₂ (fun r vr =>
        rowGet vr "contender_a" = rowGet r "fighter_1" ∧
        rowGet vr "contender_b" = rowGet r "fighter_2")
      (df.rows.filter (fun r =>
        rowGet r "is_title_bout" = some (.num 2) ∧
        ¬ rowGet r "is_champion_fighter_1" = some (.num 2) ∧
        ¬ rowGet r "is_champion_fighter_2" = some (.num 2)))
      vac.rows := by
  obtain ⟨hcc, hvac⟩ := title_spec h
  refine ⟨hcc.length_eq, hvac.length_eq, ?_⟩
  refine forall₂_imp_mem hvac ?_
  intro r vr hrmem hsel
  exact vacantRow_contenders hsel (hclean r (List.mem_of_mem_filter hrmem))

def titleTable : Table :=
  ⟨sampleTitleCols, [sampleTitleBout "A" "B" 2 0, sampleTitleBout "C" "D" 0 0]⟩

def titleOut : Table × Table :=
  (create_title_bouts_datasets titleTable).toOption.getD (⟨[], []⟩, ⟨[], []⟩)

set_option maxRecDepth 8000 in
/-- Witness for `classify_title_routing` on a two-title-bout table (one
    with a side-1 champion, one vacant). -/
theorem classify_title_routing_witness :
    (titleTable.rows.filter (fun r => rowGet r "is_title_bout" = some (.num 2))).length
      = titleOut.1.rows.length ∧
    (titleTable.rows.filter (fun r =>
        rowGet r "is_title_bout" = some (.num 2) ∧
        ¬ rowGet r "is_champion_fighter_1" = some (.num 2) ∧
        ¬ rowGet r "is_champion_fighter_2" = some (.num 2))).length
      = titleOut.2.rows.length ∧
    List.Forall₂ (fun r vr =>
        rowGet vr "contender_a" = rowGet r "fighter_1" ∧
        rowGet vr "contender_b" = rowGet r "fighter_2")
      (titleTable.rows.filter (fun r =>
        rowGet r "is_title_bout" = some (.num 2) ∧
        ¬ rowGet r "is_champion_fighter_1" = some (.num 2) ∧
        ¬ rowGet r "is_champion_fighter_2" = some (.num 2)))
      titleOut.2.rows :=
  @classify_title_routing titleTable titleOut.1 titleOut.2 rfl (by decide)

/-- C3: per title bout of the champion/contender output, read in the
    source's cascade order: a side-1 champion flag makes the side-1 fighter
    champion and side-2 contender; otherwise a side-2 flag reverses the
    roles; with neither flag the champion field is the literal "Vacant" and
    the champion-side stats (age, W/L streak, result) are missing. -/
theorem champion_assignment {df cc vac : Table}
    (h : create_title_bouts_datasets df = .ok (cc, vac)) :
    List.Forall₂ (fun r o => ∀ a1 a2 : String,
      rowGet r "fighter_1" = some (.str a1) →
      rowGet r "fighter_2" = some (.str a2) →
      (rowGet r "is_champion_fighter_1" = some (.num 2) →
        rowGet o "champion" = some (.str a1) ∧ rowGet o "contender" = some (.str a2)) ∧
      (¬ rowGet r "is_champion_fighter_1" = some (.num 2) →
        rowGet r "is_champion_fighter_2" = some (.num 2) →
        rowGet o "champion" = some (.str a2) ∧ rowGet o "contender" = some (.str a1)) ∧
      (¬ rowGet r "is_champion_fighter_1" = some (.num 2) →
        ¬ rowGet r "is_champion_fighter_2" = some (.num 2) →
        rowGet o "champion" = some (.str "Vacant") ∧
        rowGet o "champion_age" = some .null ∧
        rowGet o "champion_W/L_streak" = some .null ∧
        rowGet o "champion_result" = some .null))
      (df.rows.filter (fun r => rowGet r "is_title_bout" = some (.num 2)))
      cc.rows :=
  (title_spec h).1.imp (fun r o hcc a1 a2 h1 h2 => ccRowFun_fields hcc h1 h2)

set_option maxRecDepth 8000 in
/-- Witness for `champion_assignment`: in the two-bout title table, the
    first bout (side-1 champion flag) yields champion "A", contender "B". -/
theorem champion_assignment_witness :
    rowGet (titleOut.1.rows.headD []) "champion" = some (.str "A") ∧
    rowGet (titleOut.1.rows.headD []) "contender" = some (.str "B") := by
  have h := @champion_assignment titleTable titleOut.1 titleOut.2 rfl
  have hmem : ((titleTable.rows.filter
        (fun r => rowGet r "is_title_bout" = some (.num 2))).headD [],
      titleOut.1.rows.headD []) ∈
      (titleTable.rows.filter
        (fun r => rowGet r "is_title_bout" = some (.num 2))).zip titleOut.1.rows := by
    decide
  exact ((List.forall₂_zip h hmem) "A" "B" (by decide) (by decide)).1 (by decide)

def bothFlagsTable : Table := ⟨sampleTitleCols, [sampleTitleBout "A" "B" 2 2]⟩

set_option maxRecDepth 8000 in
/-- Counterexample to C4 as stated: on a title bout with both `is_champion`
    flags equal to 2 the classifier raises no error at all — it returns
    successfully and silently crowns the side-1 fighter. -/
theorem conflicting_champion_cex :
    (create_title_bouts_datasets bothFlagsTable).toOption.map
      (fun p => p.1.rows.map (fun o => (rowGet o "champion", rowGet o "contender")))
      = some [(some (.str "A"), some (.str "B"))] := by decide

/-- C4 (amended): when both `is_champion` flags equal 2 the classifier does
    not report any conflict: the side-1 branch of the cascade wins, so the
    side-1 fighter is silently assigned champion and the side-2 fighter
    contender. -/
theorem conflicting_champion_silent {df cc vac : Table}
    (h : create_title_bouts_datasets df = .ok (cc, vac)) :
    List.Forall₂ (fun r o => ∀ a1 a2 : String,
      rowGet r "fighter_1" = some (.str a1) →
      rowGet r "fighter_2" = some (.str a2) →
      rowGet r "is_champion_fighter_1" = some (.num 2) →
      rowGet r "is_champion_fighter_2" = some (.num 2) →
      rowGet o "champion" = some (.str a1) ∧ rowGet o "contender" = some (.str a2))
      (df.rows.filter (fun r => rowGet r "is_title_bout" = some (.num 2)))
      cc.rows :=
  (title_spec h).1.imp (fun r o hcc a1 a2 h1 h2 hf1 _ => (ccRowFun_fields hcc h1 h2).1 hf1)

def bothOut : Table × Table :=
  (create_title_bouts_datasets bothFlagsTable).toOption.getD (⟨[], []⟩, ⟨[], []⟩)

set_option maxRecDepth 8000 in
/-- Witness for `conflicting_champion_silent` on the both-flags table. -/
theorem conflicting_champion_silent_witness :
    rowGet (bothOut.1.rows.headD []) "champion" = some (.str "A") ∧
    rowGet (bothOut.1.rows.headD []) "contender" = some (.str "B") := by
  have h := @conflicting_champion_silent bothFlagsTable bothOut.1 bothOut.2 rfl
  have hmem : ((bothFlagsTable.rows.filter
        (fun r => rowGet r "is_title_bout" = some (.num 2))).headD [],
      bothOut.1.rows.headD []) ∈
      (bothFlagsTable.rows.filter
        (fun r => rowGet r "is_title_bout" = some (.num 2))).zip bothOut.1.rows := by
    decide
  exact (List.forall₂_zip h hmem) "A" "B" (by decide) (by decide) (by decide) (by decide)

/-- C10: both public builders are pure: the caller's table comes back
    unchanged from a call (the source filters with `.copy()` before any
    in-place mutation), and a second call on the post-call table returns the
    same result as the first. -/
theorem builders_pure (df : Table) (fighterName : String) :
    (create_fighter_career_dataset_run df fighterName).2 = df ∧
    (create_fighter_career_dataset_run
        ((create_fighter_career_dataset_run df fighterName).2) fighterName).1 =
      (create_fighter_career_dataset_run df fighterName).1 ∧
    (create_fighter_career_dataset_run df fighterName).1 =
      create_fighter_career_dataset df fighterName ∧
    (create_title_bouts_datasets_run df).2 = df ∧
    (create_title_bouts_datasets_run ((create_title_bouts_datasets_run df).2)).1 =
      (create_title_bouts_datasets_run df).1 ∧
    (create_title_bouts_datasets_run df).1 = create_title_bouts_datasets df :=
  ⟨rfl, rfl, rfl, rfl, rfl, rfl⟩
